import Mathlib

/-!
# Saga coordinator and three-step pipeline

A shallow embedding of `internal/saga/saga.go`, `internal/workflow/saga_workflow.go`
and `internal/activities/external.go`.

Conventions of the embedding:

* a Go `error` is an `Option GoError` (`none` is the nil error);
* effectful Go code is a state-passing function: it takes the current state and
  returns its results together with the next state;
* a method on a pointer receiver that mutates the receiver returns the new receiver;
* the durable-execution substrate (scheduling, time-outs, replay) is not part of the
  embedding: running an activity is a function on the state of the outside world.
-/

/-- Go error values that the program builds or passes on.  `errorf` stands for an error
made by `fmt.Errorf` or handed back by a library; the other two are the results of
`temporal.NewApplicationError` and `temporal.NewApplicationErrorWithCause`. -/
inductive GoError where
  | errorf (msg : String)
  | application (message errType : String)
  | applicationWithCause (message errType : String) (cause : GoError)
  deriving DecidableEq, Repr

namespace saga

/-- Rollback is `func(ctx workflow.Context) error`: an action on the state `S` that
returns an error or nil. -/
abbrev Rollback (S : Type) := S → Option GoError × S

/-- Saga is the struct holding the slice `rollbacks`. -/
structure Saga (S : Type) where
  rollbacks : List (Rollback S)

/-- New returns a saga with an empty slice of rollbacks. -/
def New {S : Type} : Saga S := { rollbacks := [] }

/-- Add is `s.rollbacks = append(s.rollbacks, c)`. -/
def Saga.Add {S : Type} (s : Saga S) (c : Rollback S) : Saga S :=
  { rollbacks := s.rollbacks ++ [c] }

/-- The loop of `Fail`, `for i := len(s.rollbacks) - 1; i >= 0; i--`.  The first argument
is `i + 1`; the loop stops when it reaches `0`, that is when `i` is `-1`. -/
def Saga.failLoop {S : Type} (s : Saga S) :
    (n : Nat) → n ≤ s.rollbacks.length → Option GoError → S → Option GoError × S
  | 0, _, firstErr, w => (firstErr, w)
  | i + 1, h, firstErr, w =>
    have hi : i < s.rollbacks.length := h
    match s.rollbacks[i] w with
    | (err, w1) =>
      if err ≠ none ∧ firstErr = none then
        Saga.failLoop s i (Nat.le_of_lt hi) err w1
      else
        Saga.failLoop s i (Nat.le_of_lt hi) firstErr w1

/-- Fail runs the loop and builds the returned error.  The receiver is not mutated by the
source, so no new saga is returned. -/
def Saga.Fail {S : Type} (s : Saga S) (cause : Option GoError) (w : S) : Option GoError × S :=
  match s.failLoop s.rollbacks.length (Nat.le_refl _) cause w with
  | (firstErr, w1) =>
    match cause with
    | some c => (some (GoError.applicationWithCause "saga failed" "SagaError" c), w1)
    | none =>
      match firstErr with
      | none => (some (GoError.application "saga failed" "SagaError"), w1)
      | some e => (some e, w1)

/-- What a call of `ExecuteActivity` leaves behind: the two returned values, the saga
behind the pointer `s`, and the state. -/
structure Exec (T S : Type) where
  result : T
  err : Option GoError
  saga : Saga S
  state : S

/-- ExecuteActivity: `act` stands for `workflow.ExecuteActivity(ctx, act, args...)` followed
by `f.Get(ctx, &result)`; `default` is the zero value of `T`; a nil `rollback` is `none`. -/
def ExecuteActivity {T S : Type} [Inhabited T] (s : Saga S) (act : S → Except GoError T × S)
    (rollback : Option (Rollback S)) (w : S) : Exec T S :=
  match act w with
  | (Except.error err, w1) =>
    match s.Fail (some err) w1 with
    | (e, w2) => { result := default, err := e, saga := s, state := w2 }
  | (Except.ok result, w1) =>
    match rollback with
    | some rb => { result := result, err := none, saga := s.Add rb, state := w1 }
    | none => { result := result, err := none, saga := s, state := w1 }

end saga

namespace config

/-- Config is the struct of `pkg/config/config.go`; the derived duration field is left
out, it is a function of `HTTPTimeoutSeconds`. -/
structure Config where
  TemporalAddress : String
  TemporalNamespace : String
  TemporalTaskQueue : String
  TransactionTimeoutSeconds : Int
  API1BaseURL : String
  API2BaseURL : String
  API3BaseURL : String
  MockMode : Bool
  HTTPTimeoutSeconds : Int
  ServerPort : String
  deriving DecidableEq, Repr

end config

namespace activities

open config

/-- A Go value of type `any` as far as the program looks at it: either a string, or a
value of some other dynamic type (kept as text). -/
inductive AnyValue where
  | str (s : String)
  | other (text : String)
  deriving DecidableEq, Repr

/-- A Go `map[string]any`, as the list of its entries. -/
abbrev GoMap := List (String × AnyValue)

/-- RequestPayload of `external.go`. -/
structure RequestPayload where
  Operation : String
  Data : GoMap
  Meta : GoMap
  deriving DecidableEq, Repr

/-- StepInput of `external.go`. -/
structure StepInput where
  BaseURL : String
  Method : String
  ResourceID : String
  Payload : RequestPayload
  deriving DecidableEq, Repr

/-- StepResult of `external.go`. -/
structure StepResult where
  ResourceID : String
  deriving DecidableEq, Repr

instance : Inhabited StepResult := ⟨{ ResourceID := "" }⟩

/-- An HTTP request as handed to `httpClient.Do`. -/
structure HttpRequest where
  method : String
  url : String
  body : String
  headers : List (String × String)
  deriving DecidableEq, Repr

/-- The part of an HTTP response the client reads. -/
structure HttpResponse where
  StatusCode : Int
  Body : String
  deriving DecidableEq, Repr

/-- The libraries and the network the client calls into, as parameters:
`json.Marshal`, the validation done by `http.NewRequestWithContext`, `httpClient.Do`
(its answer may depend on the requests sent before), the JSON decoder for
`map[string]any`, and `time.Now().Unix()` (by the count of earlier readings). -/
structure Net where
  marshal : RequestPayload → String
  newRequest : String → String → Option GoError
  roundTrip : List HttpRequest → HttpRequest → Except GoError HttpResponse
  decode : String → Option GoMap
  unixNow : Nat → Int

/-- The state outside the process: the requests sent over the network so far, and how
often the clock was read. -/
structure Outside where
  requests : List HttpRequest
  clockReads : Nat
  deriving DecidableEq, Repr

/-- The type assertion `v.(string)` on a map lookup: a missing key gives the nil
interface, on which the assertion fails. -/
def asString : Option AnyValue → Option String
  | some (AnyValue.str s) => some s
  | _ => none

/-- The `switch in.Method` of `crudOperation`: the URL and body to send, or the error
returned from inside the switch. -/
def requestTarget (net : Net) (inp : StepInput) : Except GoError (String × String) :=
  if inp.Method = "POST" then
    Except.ok (inp.BaseURL ++ "/create", net.marshal inp.Payload)
  else if inp.Method = "DELETE" then
    if inp.ResourceID = "" then
      Except.error (GoError.errorf "resource_id required for DELETE")
    else
      Except.ok (inp.BaseURL ++ "/" ++ inp.ResourceID, "")
  else if inp.Method = "PUT" then
    if inp.ResourceID = "" then
      Except.error (GoError.errorf "resource_id required for PUT")
    else
      Except.ok (inp.BaseURL ++ "/" ++ inp.ResourceID, net.marshal inp.Payload)
  else
    Except.error (GoError.errorf ("unsupported method: " ++ inp.Method))

/-- The tail of `crudOperation` after a 2xx response: how `result.ResourceID` is set. -/
def resourceIDOf (net : Net) (inp : StepInput) (resp : HttpResponse) : String :=
  if inp.Method = "POST" ∨ inp.Method = "PUT" then
    match net.decode resp.Body with
    | some out =>
      match asString (out.lookup "id") with
      | some v => v
      | none =>
        match asString (out.lookup "_id") with
        | some v => v
        | none =>
          match asString (out.lookup "ID") with
          | some v => v
          | none => ""
    | none => ""
  else if inp.Method = "DELETE" then inp.ResourceID
  else ""

/-- ExternalClient.crudOperation: returns the pair `(result, err)` and the state outside. -/
def crudOperation (net : Net) (cfg : Config) (inp : StepInput) (w : Outside) :
    (StepResult × Option GoError) × Outside :=
  if cfg.MockMode = true then
    if inp.Method = "POST" then
      (({ ResourceID := "mock-" ++ inp.Payload.Operation ++ "-" ++ toString (net.unixNow w.clockReads) },
        none), { w with clockReads := w.clockReads + 1 })
    else
      (({ ResourceID := inp.ResourceID }, none), w)
  else
    match requestTarget net inp with
    | Except.error err => (({ ResourceID := "" }, some err), w)
    | Except.ok (url, body) =>
      match net.newRequest inp.Method url with
      | some err => (({ ResourceID := "" }, some err), w)
      | none =>
        let req : HttpRequest :=
          { method := inp.Method, url := url, body := body,
            headers := [("Content-Type", "application/json")] }
        let w1 : Outside := { w with requests := w.requests ++ [req] }
        match net.roundTrip w.requests req with
        | Except.error err => (({ ResourceID := "" }, some err), w1)
        | Except.ok resp =>
          if resp.StatusCode < 200 ∨ resp.StatusCode ≥ 300 then
            (({ ResourceID := "" },
              some (GoError.errorf
                ("external API error: " ++ toString resp.StatusCode ++ " " ++ resp.Body))), w1)
          else
            (({ ResourceID := resourceIDOf net inp resp }, none), w1)

/-- ExternalClient.rollback: a DELETE of `baseURL/id`. -/
def rollback (net : Net) (baseURL id : String) (w : Outside) : Option GoError × Outside :=
  let url := baseURL ++ "/" ++ id
  match net.newRequest "DELETE" url with
  | some err => (some err, w)
  | none =>
    let req : HttpRequest := { method := "DELETE", url := url, body := "", headers := [] }
    let w1 : Outside := { w with requests := w.requests ++ [req] }
    match net.roundTrip w.requests req with
    | Except.error err => (some err, w1)
    | Except.ok resp =>
      if resp.StatusCode < 200 ∨ resp.StatusCode ≥ 300 then
        (some (GoError.errorf
          ("rollback failed: " ++ toString resp.StatusCode ++ " " ++ resp.Body)), w1)
      else
        (none, w1)

/-- Activities.Step1 makes a client from the configuration and calls `crudOperation`. -/
def Step1 (net : Net) (cfg : Config) (inp : StepInput) (w : Outside) :
    (StepResult × Option GoError) × Outside :=
  crudOperation net cfg inp w

/-- Activities.Step2 makes a client from the configuration and calls `crudOperation`. -/
def Step2 (net : Net) (cfg : Config) (inp : StepInput) (w : Outside) :
    (StepResult × Option GoError) × Outside :=
  crudOperation net cfg inp w

/-- Activities.Step3 makes a client from the configuration and calls `crudOperation`. -/
def Step3 (net : Net) (cfg : Config) (inp : StepInput) (w : Outside) :
    (StepResult × Option GoError) × Outside :=
  crudOperation net cfg inp w

/-- Activities.Rollback makes a client from the configuration and calls `rollback`. -/
def Rollback (net : Net) (_cfg : Config) (baseURL id : String) (w : Outside) :
    Option GoError × Outside :=
  rollback net baseURL id w

end activities

namespace workflow

open saga activities config

/-- OperationInput of `saga_workflow.go`. -/
structure OperationInput where
  Method : String
  Data : GoMap
  ID1 : String
  ID2 : String
  ID3 : String
  deriving DecidableEq, Repr

/-- OperationResult of `saga_workflow.go`. -/
structure OperationResult where
  Step1ID : String
  Step2ID : String
  Step3ID : String
  deriving DecidableEq, Repr

/-- What `workflow.ExecuteActivity(ctx, acts.X, args...)` followed by `Get` does for each
of the four registered activities, on a state `σ` of the outside world.  The activity
options (time-outs, retry policy) are applied by the substrate inside these functions. -/
structure Activities (σ : Type) where
  Step1 : StepInput → σ → Except GoError StepResult × σ
  Step2 : StepInput → σ → Except GoError StepResult × σ
  Step3 : StepInput → σ → Except GoError StepResult × σ
  Rollback : String → String → σ → Option GoError × σ

/-- The state a rollback closure sees when it is called: the local variable `result` of
`SagaWorkflow`, which the closures capture by reference, and the outside world. -/
structure Frame (σ : Type) where
  result : OperationResult
  world : σ

/-- Run an action on the outside world from inside the workflow; the locals stay as
they are. -/
def Frame.run {σ α : Type} (f : σ → α × σ) (c : Frame σ) : α × Frame σ :=
  match f c.world with
  | (a, w) => (a, { c with world := w })

/-- The closure `rollback1`. -/
def rollback1 {σ : Type} (acts : Activities σ) (cfg : Config) (shouldRollback : Bool) :
    Rollback (Frame σ) := fun c =>
  if shouldRollback = false ∨ c.result.Step1ID = "" then (none, c)
  else Frame.run (acts.Rollback cfg.API1BaseURL c.result.Step1ID) c

/-- The closure `comp2`. -/
def comp2 {σ : Type} (acts : Activities σ) (cfg : Config) (shouldRollback : Bool) :
    Rollback (Frame σ) := fun c =>
  if shouldRollback = false ∨ c.result.Step2ID = "" then (none, c)
  else Frame.run (acts.Rollback cfg.API2BaseURL c.result.Step2ID) c

/-- The closure `comp3`. -/
def comp3 {σ : Type} (acts : Activities σ) (cfg : Config) (shouldRollback : Bool) :
    Rollback (Frame σ) := fun c =>
  if shouldRollback = false ∨ c.result.Step3ID = "" then (none, c)
  else Frame.run (acts.Rollback cfg.API3BaseURL c.result.Step3ID) c

/-- The `StepInput` literal passed to step 1. -/
def stepInput1 (cfg : Config) (inp : OperationInput) : StepInput :=
  { BaseURL := cfg.API1BaseURL, Method := inp.Method, ResourceID := inp.ID1,
    Payload := { Operation := "step1", Data := inp.Data, Meta := [] } }

/-- The `StepInput` literal passed to step 2. -/
def stepInput2 (cfg : Config) (inp : OperationInput) : StepInput :=
  { BaseURL := cfg.API2BaseURL, Method := inp.Method, ResourceID := inp.ID2,
    Payload := { Operation := "step2", Data := inp.Data, Meta := [] } }

/-- The `StepInput` literal passed to step 3. -/
def stepInput3 (cfg : Config) (inp : OperationInput) : StepInput :=
  { BaseURL := cfg.API3BaseURL, Method := inp.Method, ResourceID := inp.ID3,
    Payload := { Operation := "step3", Data := inp.Data, Meta := [] } }

/-- The two values `SagaWorkflow` returns, and the outside world it leaves. -/
structure Run (σ : Type) where
  result : OperationResult
  err : Option GoError
  world : σ

/-- SagaWorkflow: three calls of `saga.ExecuteActivity`, each followed by
`if err != nil { return result, err }` and the assignment to the result slot. -/
def SagaWorkflow {σ : Type} (acts : Activities σ) (cfg : Config) (inp : OperationInput)
    (w : σ) : Run σ :=
  let s : Saga (Frame σ) := saga.New
  let shouldRollback : Bool := decide (inp.Method = "POST")
  let c0 : Frame σ := { result := { Step1ID := "", Step2ID := "", Step3ID := "" }, world := w }
  -- Step 1
  let x1 := saga.ExecuteActivity s (Frame.run (acts.Step1 (stepInput1 cfg inp)))
    (some (rollback1 acts cfg shouldRollback)) c0
  match x1.err with
  | some err => { result := x1.state.result, err := some err, world := x1.state.world }
  | none =>
    let c1 : Frame σ :=
      { x1.state with result := { x1.state.result with Step1ID := x1.result.ResourceID } }
    -- Step 2
    let x2 := saga.ExecuteActivity x1.saga (Frame.run (acts.Step2 (stepInput2 cfg inp)))
      (some (comp2 acts cfg shouldRollback)) c1
    match x2.err with
    | some err => { result := x2.state.result, err := some err, world := x2.state.world }
    | none =>
      let c2 : Frame σ :=
        { x2.state with result := { x2.state.result with Step2ID := x2.result.ResourceID } }
      -- Step 3
      let x3 := saga.ExecuteActivity x2.saga (Frame.run (acts.Step3 (stepInput3 cfg inp)))
        (some (comp3 acts cfg shouldRollback)) c2
      match x3.err with
      | some err => { result := x3.state.result, err := some err, world := x3.state.world }
      | none =>
        let c3 : Frame σ :=
          { x3.state with result := { x3.state.result with Step3ID := x3.result.ResourceID } }
        { result := c3.result, err := none, world := c3.world }

/-- One activity invocation, as the substrate sees it. -/
inductive Event where
  | Step1 (inp : StepInput)
  | Step2 (inp : StepInput)
  | Step3 (inp : StepInput)
  | Rollback (baseURL id : String)
  deriving DecidableEq, Repr

/-- An outside world together with the log of the activity invocations made so far. -/
structure Traced (σ : Type) where
  trace : List Event
  inner : σ

/-- The same activities, each invocation written to the log before it runs. -/
def traced {σ : Type} (acts : Activities σ) : Activities (Traced σ) where
  Step1 inp t :=
    match acts.Step1 inp t.inner with
    | (r, w) => (r, { trace := t.trace ++ [Event.Step1 inp], inner := w })
  Step2 inp t :=
    match acts.Step2 inp t.inner with
    | (r, w) => (r, { trace := t.trace ++ [Event.Step2 inp], inner := w })
  Step3 inp t :=
    match acts.Step3 inp t.inner with
    | (r, w) => (r, { trace := t.trace ++ [Event.Step3 inp], inner := w })
  Rollback baseURL id t :=
    match acts.Rollback baseURL id t.inner with
    | (e, w) => (e, { trace := t.trace ++ [Event.Rollback baseURL id], inner := w })

/-- The Compensator calls in a log, in the order they were made: the pairs
`(baseURL, id)` of the `Rollback` invocations. -/
def rollbackCalls : List Event → List (String × String)
  | [] => []
  | Event.Rollback baseURL id :: es => (baseURL, id) :: rollbackCalls es
  | _ :: es => rollbackCalls es

/-- The step invocations in a log, in the order they were made, by step number. -/
def stepCalls : List Event → List Nat
  | [] => []
  | Event.Step1 _ :: es => 1 :: stepCalls es
  | Event.Step2 _ :: es => 2 :: stepCalls es
  | Event.Step3 _ :: es => 3 :: stepCalls es
  | Event.Rollback _ _ :: es => stepCalls es

/-- The log of a run of `SagaWorkflow` that starts with an empty log. -/
def runTrace {σ : Type} (acts : Activities σ) (cfg : Config) (inp : OperationInput)
    (w : σ) : List Event :=
  (SagaWorkflow (traced acts) cfg inp { trace := [], inner := w }).world.trace

end workflow

namespace saga

/-- The saga reached from `New` by calling `Add` with each rollback of `rs`, first to
last. -/
def addAll {S : Type} (rs : List (Rollback S)) : Saga S :=
  rs.foldl Saga.Add New

/-- Specification side: run the given rollbacks one after the other, first to last, each
once and whatever the earlier ones returned; gives the errors they returned, in the order
of the calls, and the state left by the last one. -/
def runInOrder {S : Type} : List (Rollback S) → S → List (Option GoError) × S
  | [], w => ([], w)
  | r :: rs, w =>
    match r w with
    | (e, w1) =>
      match runInOrder rs w1 with
      | (es, w2) => (e :: es, w2)

/-- Specification side: the first non-nil error of a list of returned errors. -/
def firstFailure : List (Option GoError) → Option GoError
  | [] => none
  | some e :: _ => some e
  | none :: es => firstFailure es

/-- A rollback that writes its tag to a log of invocations and returns the given error
(or nil). -/
def probe (tag : Nat) (err : Option GoError) : Rollback (List Nat) :=
  fun log => (err, log ++ [tag])

/-- A step that writes tag `0` to the log of invocations and returns the given outcome. -/
def probeStep {T : Type} (outcome : Except GoError T) : List Nat → Except GoError T × List Nat :=
  fun log => (outcome, log ++ [0])

end saga

namespace workflow

open saga activities config

/-- The substrate running one activity under a retry policy, as far as the pipeline
depends on it: the activity function is attempted, and attempted again after a failure
while retries are left; the error of the last attempt is the error of the invocation.
The policy in the activity options of `SagaWorkflow` has `MaximumAttempts: 3`, that is
two retries. -/
def attempt {σ β : Type} (act : σ → (β × Option GoError) × σ) :
    Nat → σ → Except GoError β × σ
  | 0, w =>
    match act w with
    | ((r, none), w1) => (Except.ok r, w1)
    | ((_, some e), w1) => (Except.error e, w1)
  | retries + 1, w =>
    match act w with
    | ((r, none), w1) => (Except.ok r, w1)
    | ((_, some _), w1) => attempt act retries w1

/-- The four activities as registered by the worker (`cmd/worker/main.go`) with its
configuration `wcfg`, run against the network `net` with the given number of retries. -/
def deployed (net : Net) (wcfg : Config) (retries : Nat) : Activities Outside where
  Step1 inp := attempt (activities.Step1 net wcfg inp) retries
  Step2 inp := attempt (activities.Step2 net wcfg inp) retries
  Step3 inp := attempt (activities.Step3 net wcfg inp) retries
  Rollback baseURL id w :=
    match attempt (fun v => match activities.Rollback net wcfg baseURL id v with
                            | (e, v1) => (((), e), v1)) retries w with
    | (Except.ok _, w1) => (none, w1)
    | (Except.error e, w1) => (some e, w1)

end workflow

namespace activities

/-- Specification side: the value of the first of the given keys, tried in order, whose
entry in the map is a string. -/
def firstStringOf : List String → GoMap → Option String
  | [], _ => none
  | k :: ks, out =>
    match asString (out.lookup k) with
    | some v => some v
    | none => firstStringOf ks out

/-- Specification side: the resource id of a Create or Update step after a 2xx answer
with the given body: the first string among the keys "id", "_id", "ID" of the decoded
object, and empty when there is none or the body does not decode. -/
def decodedID (net : Net) (body : String) : String :=
  match net.decode body with
  | some out => (firstStringOf ["id", "_id", "ID"] out).getD ""
  | none => ""

/-- The request `crudOperation` hands to `httpClient.Do` for a URL and body. -/
def requestOf (inp : StepInput) (url body : String) : HttpRequest :=
  { method := inp.Method, url := url, body := body,
    headers := [("Content-Type", "application/json")] }

end activities

namespace workflow

/-- Specification side: the log entries of the undo of one step that returned `id` at the
service with base URL `url`, for a request of method `m`: the one Compensator call when
the method is POST and the id is non-empty, nothing otherwise. -/
def undoEvents (m url id : String) : List Event :=
  if m = "POST" ∧ id ≠ "" then [Event.Rollback url id] else []

end workflow

/-! ## Fixtures

Concrete configurations, requests and outside worlds, in the shape of the test file
`saga_workflow_test.go`. -/

namespace fixture

open saga activities config workflow

/-- The configuration `newCfg` of the tests, with base `u`. -/
def cfg : Config :=
  { TemporalAddress := "", TemporalNamespace := "default",
    TemporalTaskQueue := "saga-task-queue-test", TransactionTimeoutSeconds := 10,
    API1BaseURL := "u/api1", API2BaseURL := "u/api2", API3BaseURL := "u/api3",
    MockMode := false, HTTPTimeoutSeconds := 2, ServerPort := "0" }

/-- The same configuration in mock mode. -/
def cfgMock : Config := { cfg with MockMode := true }

/-- The Create request of the tests. -/
def post : OperationInput :=
  { Method := "POST", Data := [("k", AnyValue.str "v")], ID1 := "", ID2 := "", ID3 := "" }

/-- An Update request that gives no resource ids. -/
def putNoIds : OperationInput :=
  { Method := "PUT", Data := [("k", AnyValue.str "v")], ID1 := "", ID2 := "", ID3 := "" }

/-- A Delete request with the first id given and the second missing. -/
def deleteOneId : OperationInput :=
  { Method := "DELETE", Data := [], ID1 := "a1", ID2 := "", ID3 := "x3" }

/-- Activities with fixed outcomes, on a world without state. -/
def scripted (r1 r2 r3 : Except GoError StepResult) (rb : Option GoError) :
    Activities Unit where
  Step1 _ w := (r1, w)
  Step2 _ w := (r2, w)
  Step3 _ w := (r3, w)
  Rollback _ _ w := (rb, w)

/-- A network on which every request is answered `200` with an empty body. -/
def netOk : Net where
  marshal _ := "payload"
  newRequest _ _ := none
  roundTrip _ _ := Except.ok { StatusCode := 200, Body := "" }
  decode _ := none
  unixNow _ := 0

/-- A network in the shape of the test server: service 1 answers a Create with the id
`a1`, service 2 answers `200` with an object that holds no id, service 3 answers `500`;
every other request is answered `200`. -/
def netNoId2Fail3 : Net where
  marshal _ := "payload"
  newRequest _ _ := none
  roundTrip _ req :=
    if req.url = "u/api1/create" then Except.ok { StatusCode := 200, Body := "a1" }
    else if req.url = "u/api3/create" then Except.ok { StatusCode := 500, Body := "fail3" }
    else Except.ok { StatusCode := 200, Body := "" }
  decode b := if b = "" then some [] else some [("id", AnyValue.str b)]
  unixNow _ := 0

/-- A network that answers every request `201` with an object whose key "id" holds a
number and whose key "_id" holds the string `x7`. -/
def netMongo : Net where
  marshal _ := "payload"
  newRequest _ _ := none
  roundTrip _ _ := Except.ok { StatusCode := 201, Body := "doc" }
  decode _ := some [("id", AnyValue.other "5"), ("_id", AnyValue.str "x7"),
                    ("ID", AnyValue.str "z9")]
  unixNow _ := 0

/-- The step input of an Update of the resource `r1` at service 1. -/
def putStep : StepInput :=
  { BaseURL := "u/api1", Method := "PUT", ResourceID := "r1",
    Payload := { Operation := "step1", Data := [], Meta := [] } }

/-- The outside world before anything was sent. -/
def fresh : Outside := { requests := [], clockReads := 0 }

end fixture

/-! ## Theorems -/

namespace saga

/-- Running a list of rollbacks followed by one more. -/
theorem runInOrder_append {S : Type} (rs : List (Rollback S)) (r : Rollback S) (w : S) :
    runInOrder (rs ++ [r]) w =
      ((runInOrder rs w).1 ++ [(r (runInOrder rs w).2).1], (r (runInOrder rs w).2).2) := by
  induction rs generalizing w with
  | nil => simp [runInOrder]
  | cons a rs ih => simp [runInOrder, ih]

/-- The first failure of a list that starts with a returned error `e`. -/
theorem firstFailure_cons (e : Option GoError) (es : List (Option GoError)) :
    firstFailure (e :: es) = (match e with | some x => some x | none => firstFailure es) := by
  cases e <;> rfl

/-- The rollbacks of a saga built by `addAll` are the rollbacks added, in order. -/
theorem addAll_rollbacks {S : Type} (rs : List (Rollback S)) :
    (addAll rs).rollbacks = rs := by
  have key : ∀ (l : List (Rollback S)) (s : Saga S),
      (l.foldl Saga.Add s).rollbacks = s.rollbacks ++ l := by
    intro l
    induction l with
    | nil => intro s; simp
    | cons a l ih => intro s; simp [List.foldl, ih, Saga.Add]
  simpa [addAll, New] using key rs New

/-- The loop of `Fail` from index `n - 1` down to `0` calls the first `n` rollbacks
last to first; `firstErr` keeps its value if it is set, and else takes the first error
returned. -/
theorem failLoop_eq {S : Type} (s : Saga S) (n : Nat) (h : n ≤ s.rollbacks.length)
    (firstErr : Option GoError) (w : S) :
    s.failLoop n h firstErr w =
      ((match firstErr with
        | some e => some e
        | none => firstFailure (runInOrder (s.rollbacks.take n).reverse w).1),
       (runInOrder (s.rollbacks.take n).reverse w).2) := by
  induction n generalizing firstErr w with
  | zero => cases firstErr <;> simp [Saga.failLoop, runInOrder, firstFailure]
  | succ i ih =>
    have hi : i < s.rollbacks.length := h
    have htake : (s.rollbacks.take (i + 1)).reverse
        = s.rollbacks[i] :: (s.rollbacks.take i).reverse := by
      rw [List.take_succ, List.getElem?_eq_getElem hi]
      simp
    rw [htake]
    unfold Saga.failLoop
    rcases hr : s.rollbacks[i] w with ⟨err, w1⟩
    simp only [runInOrder, hr]
    cases firstErr with
    | some e => simp [ih, hr]
    | none =>
      cases err with
      | none => simp [ih, firstFailure, hr]
      | some e => simp [ih, firstFailure, hr]

/-- The state and the value of `firstErr` after the whole loop of `Fail`. -/
theorem failLoop_full {S : Type} (s : Saga S) (firstErr : Option GoError) (w : S) :
    s.failLoop s.rollbacks.length (Nat.le_refl _) firstErr w =
      ((match firstErr with
        | some e => some e
        | none => firstFailure (runInOrder s.rollbacks.reverse w).1),
       (runInOrder s.rollbacks.reverse w).2) := by
  rw [failLoop_eq]
  simp

/-- The state `Fail` leaves is the state left by the rollbacks run last to first. -/
theorem Fail_state {S : Type} (s : Saga S) (cause : Option GoError) (w : S) :
    (s.Fail cause w).2 = (runInOrder s.rollbacks.reverse w).2 := by
  unfold Saga.Fail
  rw [failLoop_full]
  cases cause with
  | some c => rfl
  | none =>
    simp only
    cases firstFailure (runInOrder s.rollbacks.reverse w).1 <;> rfl

/-- With a cause, `Fail` returns the saga error that wraps it. -/
theorem Fail_err_some {S : Type} (s : Saga S) (cause : GoError) (w : S) :
    (s.Fail (some cause) w).1
      = some (GoError.applicationWithCause "saga failed" "SagaError" cause) := by
  unfold Saga.Fail
  rw [failLoop_full]

/-- Running probes in order appends their tags to the log, whatever they return. -/
theorem runInOrder_probes (ps : List (Nat × Option GoError)) (log : List Nat) :
    (runInOrder (ps.map fun p => probe p.1 p.2) log).2 = log ++ ps.map Prod.fst := by
  induction ps generalizing log with
  | nil => simp [runInOrder]
  | cons p ps ih => simp [runInOrder, probe, ih]

end saga

namespace saga

/-- C2: for rollbacks `rs` added in order to a new saga and any cause (nil or not),
`Fail` leaves the state that results from running the rollbacks last to first, each once,
whatever the earlier ones returned.  With rollbacks that log their tag and return
arbitrary errors, the log grows by the tags in reverse order of registration; with no
rollback registered the state is untouched. -/
theorem C2_Fail_invokes_in_reverse_order {S : Type} (rs : List (Rollback S))
    (cause : Option GoError) (w : S) :
    ((addAll rs).Fail cause w).2 = (runInOrder rs.reverse w).2
    ∧ (∀ (ps : List (Nat × Option GoError)) (log : List Nat),
        ((addAll (ps.map fun p => probe p.1 p.2)).Fail cause log).2
          = log ++ (ps.map Prod.fst).reverse)
    ∧ ((addAll ([] : List (Rollback S))).Fail cause w).2 = w := by
  refine ⟨?_, ?_, ?_⟩
  · rw [Fail_state, addAll_rollbacks]
  · intro ps log
    rw [Fail_state, addAll_rollbacks, ← List.map_reverse, runInOrder_probes, List.map_reverse]
  · rw [Fail_state, addAll_rollbacks]
    rfl

/-- C3: for every saga, every state and every non-nil cause, the error `Fail` returns is
the application error "saga failed" of type "SagaError" wrapping exactly that cause,
whatever the rollbacks return. -/
theorem C3_Fail_wraps_cause {S : Type} (s : Saga S) (cause : GoError) (w : S) :
    (s.Fail (some cause) w).1
      = some (GoError.applicationWithCause "saga failed" "SagaError" cause) :=
  Fail_err_some s cause w

/-- C4: with a nil cause, `Fail` returns the first non-nil error among those returned by
the rollbacks run last to first, and the plain "saga failed" application error when none
of them fails; the returned error is never nil. -/
theorem C4_Fail_nil_cause {S : Type} (s : Saga S) (w : S) :
    (s.Fail none w).1
      = (match firstFailure (runInOrder s.rollbacks.reverse w).1 with
         | some e => some e
         | none => some (GoError.application "saga failed" "SagaError"))
    ∧ (s.Fail none w).1 ≠ none := by
  have h : (s.Fail none w).1
      = (match firstFailure (runInOrder s.rollbacks.reverse w).1 with
         | some e => some e
         | none => some (GoError.application "saga failed" "SagaError")) := by
    unfold Saga.Fail
    rw [failLoop_full]
    simp only
    cases firstFailure (runInOrder s.rollbacks.reverse w).1 <;> rfl
  refine ⟨h, ?_⟩
  rw [h]
  cases firstFailure (runInOrder s.rollbacks.reverse w).1 <;> simp

/-- C5: when the step succeeds with `r`, leaving state `w1`, `ExecuteActivity` returns
`(r, nil)`, leaves exactly the state `w1` (no rollback has acted on it), and the saga holds
the old rollbacks followed by the given one when it is non-nil, the old rollbacks
unchanged when it is nil. -/
theorem C5_ExecuteActivity_success {T S : Type} [Inhabited T] (s : Saga S)
    (act : S → Except GoError T × S) (rollback : Option (Rollback S)) (w w1 : S) (r : T)
    (h : act w = (Except.ok r, w1)) :
    (ExecuteActivity s act rollback w).result = r
    ∧ (ExecuteActivity s act rollback w).err = none
    ∧ (ExecuteActivity s act rollback w).state = w1
    ∧ (ExecuteActivity s act rollback w).saga.rollbacks
        = (match rollback with
           | some rb => s.rollbacks ++ [rb]
           | none => s.rollbacks) := by
  unfold ExecuteActivity
  rw [h]
  cases rollback <;> simp [Saga.Add]

/-- Witness of C5: a saga holding two logging rollbacks, a logging step that succeeds
with `7`, and a third logging rollback; afterwards the log holds the step alone. -/
theorem C5_ExecuteActivity_success_witness :
    probeStep (Except.ok (7 : Nat)) [] = (Except.ok 7, [0])
    ∧ (ExecuteActivity (addAll [probe 1 none, probe 2 (some (GoError.errorf "undo2"))])
        (probeStep (Except.ok (7 : Nat))) (some (probe 3 none)) []).state = [0] :=
  ⟨rfl, (C5_ExecuteActivity_success
      (addAll [probe 1 none, probe 2 (some (GoError.errorf "undo2"))])
      (probeStep (Except.ok (7 : Nat))) (some (probe 3 none)) [] [0] 7 rfl).2.2.1⟩

/-- C6: when the step fails with `e`, leaving state `w1` after its one invocation,
`ExecuteActivity` returns the zero result and exactly the error and state of `Fail(e)` run
from `w1` on the saga as it was: the given rollback is not registered and not run, the
earlier ones run last to first, and the error is the saga error wrapping `e`. -/
theorem C6_ExecuteActivity_failure {T S : Type} [Inhabited T] (s : Saga S)
    (act : S → Except GoError T × S) (rollback : Option (Rollback S)) (w w1 : S)
    (e : GoError) (h : act w = (Except.error e, w1)) :
    (ExecuteActivity s act rollback w).result = default
    ∧ (ExecuteActivity s act rollback w).err = (s.Fail (some e) w1).1
    ∧ (ExecuteActivity s act rollback w).state = (s.Fail (some e) w1).2
    ∧ (ExecuteActivity s act rollback w).saga.rollbacks = s.rollbacks
    ∧ (ExecuteActivity s act rollback w).state = (runInOrder s.rollbacks.reverse w1).2
    ∧ (ExecuteActivity s act rollback w).err
        = some (GoError.applicationWithCause "saga failed" "SagaError" e) := by
  have hx : ExecuteActivity s act rollback w
      = { result := default, err := (s.Fail (some e) w1).1, saga := s,
          state := (s.Fail (some e) w1).2 } := by
    unfold ExecuteActivity
    rw [h]
  rw [hx]
  exact ⟨rfl, rfl, rfl, rfl, Fail_state s (some e) w1, Fail_err_some s e w1⟩

/-- Witness of C6: a saga holding logging rollbacks `1` and `2` (the second fails), a
logging step that fails, and a logging rollback `3` for it; the log shows the step once,
then rollback `2`, then rollback `1`, and never `3`. -/
theorem C6_ExecuteActivity_failure_witness :
    probeStep (Except.error (GoError.errorf "boom") : Except GoError Nat) []
      = (Except.error (GoError.errorf "boom"), [0])
    ∧ (ExecuteActivity (addAll [probe 1 none, probe 2 (some (GoError.errorf "undo2"))])
        (probeStep (Except.error (GoError.errorf "boom") : Except GoError Nat))
        (some (probe 3 none)) []).state = [0, 2, 1]
    ∧ (ExecuteActivity (addAll [probe 1 none, probe 2 (some (GoError.errorf "undo2"))])
        (probeStep (Except.error (GoError.errorf "boom") : Except GoError Nat))
        (some (probe 3 none)) []).err
        = some (GoError.applicationWithCause "saga failed" "SagaError" (GoError.errorf "boom")) := by
  have t := C6_ExecuteActivity_failure
    (addAll [probe 1 none, probe 2 (some (GoError.errorf "undo2"))])
    (probeStep (Except.error (GoError.errorf "boom") : Except GoError Nat))
    (some (probe 3 none)) [] [0] (GoError.errorf "boom") rfl
  refine ⟨rfl, ?_, t.2.2.2.2.2⟩
  rw [t.2.2.2.2.1]
  rfl

end saga

namespace saga

/-- The record `ExecuteActivity` returns when the step succeeds and a rollback is given. -/
theorem ExecuteActivity_ok {T S : Type} [Inhabited T] (s : Saga S)
    (act : S → Except GoError T × S) (rb : Rollback S) (w w1 : S) (r : T)
    (h : act w = (Except.ok r, w1)) :
    ExecuteActivity s act (some rb) w
      = { result := r, err := none, saga := s.Add rb, state := w1 } := by
  unfold ExecuteActivity
  rw [h]

/-- The record `ExecuteActivity` returns when the step fails. -/
theorem ExecuteActivity_error {T S : Type} [Inhabited T] (s : Saga S)
    (act : S → Except GoError T × S) (rollback : Option (Rollback S)) (w w1 : S)
    (e : GoError) (h : act w = (Except.error e, w1)) :
    ExecuteActivity s act rollback w
      = { result := default,
          err := some (GoError.applicationWithCause "saga failed" "SagaError" e),
          saga := s, state := (runInOrder s.rollbacks.reverse w1).2 } := by
  have hx : ExecuteActivity s act rollback w
      = { result := default, err := (s.Fail (some e) w1).1, saga := s,
          state := (s.Fail (some e) w1).2 } := by
    unfold ExecuteActivity
    rw [h]
  rw [hx, Fail_state, Fail_err_some]

end saga

namespace workflow

open saga activities config

/-- A step run from inside the workflow, given what it does to the outside world. -/
theorem Frame.run_eq {σ α : Type} (f : σ → α × σ) (c : Frame σ) (a : α) (w1 : σ)
    (h : f c.world = (a, w1)) : Frame.run f c = (a, { c with world := w1 }) := by
  unfold Frame.run
  rw [h]

/-- The closure `rollback1` leaves the local `result` as it is. -/
theorem rollback1_result {σ : Type} (acts : Activities σ) (cfg : Config) (b : Bool)
    (c : Frame σ) : (rollback1 acts cfg b c).2.result = c.result := by
  unfold rollback1 Frame.run
  split <;> rfl

/-- The closure `comp2` leaves the local `result` as it is. -/
theorem comp2_result {σ : Type} (acts : Activities σ) (cfg : Config) (b : Bool)
    (c : Frame σ) : (comp2 acts cfg b c).2.result = c.result := by
  unfold comp2 Frame.run
  split <;> rfl

/-- Step 1 fails: the result is empty, the error wraps the cause, nothing else runs. -/
theorem SagaWorkflow_fail1 {σ : Type} (acts : Activities σ) (cfg : Config)
    (inp : OperationInput) (w w1 : σ) (e : GoError)
    (h1 : acts.Step1 (stepInput1 cfg inp) w = (Except.error e, w1)) :
    SagaWorkflow acts cfg inp w
      = { result := { Step1ID := "", Step2ID := "", Step3ID := "" },
          err := some (GoError.applicationWithCause "saga failed" "SagaError" e),
          world := w1 } := by
  unfold SagaWorkflow
  simp only
  rw [ExecuteActivity_error _ _ _ _ _ e (Frame.run_eq _ _ _ w1 h1)]
  simp [saga.New, runInOrder]

/-- Step 1 succeeds and step 2 fails: the first slot is filled, the error wraps the
cause, and `rollback1` has run on the state left by step 2. -/
theorem SagaWorkflow_fail2 {σ : Type} (acts : Activities σ) (cfg : Config)
    (inp : OperationInput) (w w1 w2 : σ) (r1 : StepResult) (e : GoError)
    (h1 : acts.Step1 (stepInput1 cfg inp) w = (Except.ok r1, w1))
    (h2 : acts.Step2 (stepInput2 cfg inp) w1 = (Except.error e, w2)) :
    SagaWorkflow acts cfg inp w
      = { result := { Step1ID := r1.ResourceID, Step2ID := "", Step3ID := "" },
          err := some (GoError.applicationWithCause "saga failed" "SagaError" e),
          world := (rollback1 acts cfg (decide (inp.Method = "POST"))
            { result := { Step1ID := r1.ResourceID, Step2ID := "", Step3ID := "" },
              world := w2 }).2.world } := by
  unfold SagaWorkflow
  simp only
  rw [ExecuteActivity_ok _ _ _ _ _ r1 (Frame.run_eq _ _ _ w1 h1)]
  simp only
  rw [ExecuteActivity_error _ _ _ _ _ e (Frame.run_eq _ _ _ w2 h2)]
  simp [saga.New, Saga.Add, runInOrder, rollback1_result]

/-- Steps 1 and 2 succeed and step 3 fails: two slots are filled, the error wraps the
cause, and `comp2` then `rollback1` have run on the state left by step 3. -/
theorem SagaWorkflow_fail3 {σ : Type} (acts : Activities σ) (cfg : Config)
    (inp : OperationInput) (w w1 w2 w3 : σ) (r1 r2 : StepResult) (e : GoError)
    (h1 : acts.Step1 (stepInput1 cfg inp) w = (Except.ok r1, w1))
    (h2 : acts.Step2 (stepInput2 cfg inp) w1 = (Except.ok r2, w2))
    (h3 : acts.Step3 (stepInput3 cfg inp) w2 = (Except.error e, w3)) :
    SagaWorkflow acts cfg inp w
      = { result := { Step1ID := r1.ResourceID, Step2ID := r2.ResourceID, Step3ID := "" },
          err := some (GoError.applicationWithCause "saga failed" "SagaError" e),
          world := (rollback1 acts cfg (decide (inp.Method = "POST"))
            (comp2 acts cfg (decide (inp.Method = "POST"))
              { result := { Step1ID := r1.ResourceID, Step2ID := r2.ResourceID,
                            Step3ID := "" },
                world := w3 }).2).2.world } := by
  unfold SagaWorkflow
  simp only
  rw [ExecuteActivity_ok _ _ _ _ _ r1 (Frame.run_eq _ _ _ w1 h1)]
  simp only
  rw [ExecuteActivity_ok _ _ _ _ _ r2 (Frame.run_eq _ _ _ w2 h2)]
  simp only
  rw [ExecuteActivity_error _ _ _ _ _ e (Frame.run_eq _ _ _ w3 h3)]
  simp [saga.New, Saga.Add, runInOrder, rollback1_result, comp2_result]

/-- All three steps succeed: the three slots are filled, the error is nil, and the
outside world is the one left by step 3. -/
theorem SagaWorkflow_ok {σ : Type} (acts : Activities σ) (cfg : Config)
    (inp : OperationInput) (w w1 w2 w3 : σ) (r1 r2 r3 : StepResult)
    (h1 : acts.Step1 (stepInput1 cfg inp) w = (Except.ok r1, w1))
    (h2 : acts.Step2 (stepInput2 cfg inp) w1 = (Except.ok r2, w2))
    (h3 : acts.Step3 (stepInput3 cfg inp) w2 = (Except.ok r3, w3)) :
    SagaWorkflow acts cfg inp w
      = { result := { Step1ID := r1.ResourceID, Step2ID := r2.ResourceID,
                      Step3ID := r3.ResourceID },
          err := none, world := w3 } := by
  unfold SagaWorkflow
  simp only
  rw [ExecuteActivity_ok _ _ _ _ _ r1 (Frame.run_eq _ _ _ w1 h1)]
  simp only
  rw [ExecuteActivity_ok _ _ _ _ _ r2 (Frame.run_eq _ _ _ w2 h2)]
  simp only
  rw [ExecuteActivity_ok _ _ _ _ _ r3 (Frame.run_eq _ _ _ w3 h3)]

/-- What a step of the logging activities does, given what the step does. -/
theorem traced_Step1 {σ : Type} (acts : Activities σ) (i : StepInput) (t : Traced σ)
    (r : Except GoError StepResult) (w1 : σ) (h : acts.Step1 i t.inner = (r, w1)) :
    (traced acts).Step1 i t = (r, { trace := t.trace ++ [Event.Step1 i], inner := w1 }) := by
  simp [traced, h]

/-- What a step of the logging activities does, given what the step does. -/
theorem traced_Step2 {σ : Type} (acts : Activities σ) (i : StepInput) (t : Traced σ)
    (r : Except GoError StepResult) (w1 : σ) (h : acts.Step2 i t.inner = (r, w1)) :
    (traced acts).Step2 i t = (r, { trace := t.trace ++ [Event.Step2 i], inner := w1 }) := by
  simp [traced, h]

/-- What a step of the logging activities does, given what the step does. -/
theorem traced_Step3 {σ : Type} (acts : Activities σ) (i : StepInput) (t : Traced σ)
    (r : Except GoError StepResult) (w1 : σ) (h : acts.Step3 i t.inner = (r, w1)) :
    (traced acts).Step3 i t = (r, { trace := t.trace ++ [Event.Step3 i], inner := w1 }) := by
  simp [traced, h]

/-- The log after the closure `rollback1` of the logging activities. -/
theorem rollback1_trace {σ : Type} (acts : Activities σ) (cfg : Config) (b : Bool)
    (c : Frame (Traced σ)) :
    (rollback1 (traced acts) cfg b c).2.world.trace
      = c.world.trace ++ (if b = false ∨ c.result.Step1ID = "" then []
          else [Event.Rollback cfg.API1BaseURL c.result.Step1ID]) := by
  unfold rollback1 Frame.run
  split
  · simp
  · simp [traced]

/-- The log after the closure `comp2` of the logging activities. -/
theorem comp2_trace {σ : Type} (acts : Activities σ) (cfg : Config) (b : Bool)
    (c : Frame (Traced σ)) :
    (comp2 (traced acts) cfg b c).2.world.trace
      = c.world.trace ++ (if b = false ∨ c.result.Step2ID = "" then []
          else [Event.Rollback cfg.API2BaseURL c.result.Step2ID]) := by
  unfold comp2 Frame.run
  split
  · simp
  · simp [traced]

/-- The Compensator calls of two logs put end to end. -/
theorem rollbackCalls_append (a b : List Event) :
    rollbackCalls (a ++ b) = rollbackCalls a ++ rollbackCalls b := by
  induction a with
  | nil => rfl
  | cons x a ih => cases x <;> simp [rollbackCalls, ih]

/-- The step invocations of two logs put end to end. -/
theorem stepCalls_append (a b : List Event) :
    stepCalls (a ++ b) = stepCalls a ++ stepCalls b := by
  induction a with
  | nil => rfl
  | cons x a ih => cases x <;> simp [stepCalls, ih]

end workflow

namespace workflow

open saga activities config

/-- The logged run when step 1 fails. -/
theorem tracedRun_fail1 {σ : Type} (acts : Activities σ) (cfg : Config)
    (inp : OperationInput) (w w1 : σ) (e : GoError)
    (h1 : acts.Step1 (stepInput1 cfg inp) w = (Except.error e, w1)) :
    SagaWorkflow (traced acts) cfg inp { trace := [], inner := w }
      = { result := { Step1ID := "", Step2ID := "", Step3ID := "" },
          err := some (GoError.applicationWithCause "saga failed" "SagaError" e),
          world := { trace := [Event.Step1 (stepInput1 cfg inp)], inner := w1 } } := by
  rw [SagaWorkflow_fail1 (traced acts) cfg inp _ _ e
    (traced_Step1 acts _ { trace := [], inner := w } _ w1 h1)]
  rfl

/-- The logged run when step 1 succeeds and step 2 fails. -/
theorem tracedRun_fail2 {σ : Type} (acts : Activities σ) (cfg : Config)
    (inp : OperationInput) (w w1 w2 : σ) (r1 : StepResult) (e : GoError)
    (h1 : acts.Step1 (stepInput1 cfg inp) w = (Except.ok r1, w1))
    (h2 : acts.Step2 (stepInput2 cfg inp) w1 = (Except.error e, w2)) :
    (SagaWorkflow (traced acts) cfg inp { trace := [], inner := w }).result
        = { Step1ID := r1.ResourceID, Step2ID := "", Step3ID := "" }
    ∧ (SagaWorkflow (traced acts) cfg inp { trace := [], inner := w }).err
        = some (GoError.applicationWithCause "saga failed" "SagaError" e)
    ∧ runTrace acts cfg inp w
        = [Event.Step1 (stepInput1 cfg inp), Event.Step2 (stepInput2 cfg inp)]
          ++ (if decide (inp.Method = "POST") = false ∨ r1.ResourceID = "" then []
              else [Event.Rollback cfg.API1BaseURL r1.ResourceID]) := by
  have t1 := traced_Step1 acts _ { trace := [], inner := w } _ w1 h1
  have t2 := traced_Step2 acts (stepInput2 cfg inp)
    { trace := [] ++ [Event.Step1 (stepInput1 cfg inp)], inner := w1 } _ w2 h2
  unfold runTrace
  rw [SagaWorkflow_fail2 (traced acts) cfg inp _ _ _ r1 e t1 t2]
  refine ⟨rfl, rfl, ?_⟩
  simp only [rollback1_trace]
  simp

/-- The logged run when steps 1 and 2 succeed and step 3 fails. -/
theorem tracedRun_fail3 {σ : Type} (acts : Activities σ) (cfg : Config)
    (inp : OperationInput) (w w1 w2 w3 : σ) (r1 r2 : StepResult) (e : GoError)
    (h1 : acts.Step1 (stepInput1 cfg inp) w = (Except.ok r1, w1))
    (h2 : acts.Step2 (stepInput2 cfg inp) w1 = (Except.ok r2, w2))
    (h3 : acts.Step3 (stepInput3 cfg inp) w2 = (Except.error e, w3)) :
    (SagaWorkflow (traced acts) cfg inp { trace := [], inner := w }).result
        = { Step1ID := r1.ResourceID, Step2ID := r2.ResourceID, Step3ID := "" }
    ∧ (SagaWorkflow (traced acts) cfg inp { trace := [], inner := w }).err
        = some (GoError.applicationWithCause "saga failed" "SagaError" e)
    ∧ runTrace acts cfg inp w
        = [Event.Step1 (stepInput1 cfg inp), Event.Step2 (stepInput2 cfg inp),
           Event.Step3 (stepInput3 cfg inp)]
          ++ (if decide (inp.Method = "POST") = false ∨ r2.ResourceID = "" then []
              else [Event.Rollback cfg.API2BaseURL r2.ResourceID])
          ++ (if decide (inp.Method = "POST") = false ∨ r1.ResourceID = "" then []
              else [Event.Rollback cfg.API1BaseURL r1.ResourceID]) := by
  have t1 := traced_Step1 acts _ { trace := [], inner := w } _ w1 h1
  have t2 := traced_Step2 acts (stepInput2 cfg inp)
    { trace := [] ++ [Event.Step1 (stepInput1 cfg inp)], inner := w1 } _ w2 h2
  have t3 := traced_Step3 acts (stepInput3 cfg inp)
    { trace := ([] ++ [Event.Step1 (stepInput1 cfg inp)])
        ++ [Event.Step2 (stepInput2 cfg inp)], inner := w2 } _ w3 h3
  unfold runTrace
  rw [SagaWorkflow_fail3 (traced acts) cfg inp _ _ _ _ r1 r2 e t1 t2 t3]
  refine ⟨rfl, rfl, ?_⟩
  simp only [rollback1_trace, comp2_trace, rollback1_result, comp2_result]
  simp

/-- The logged run when all three steps succeed. -/
theorem tracedRun_ok {σ : Type} (acts : Activities σ) (cfg : Config)
    (inp : OperationInput) (w w1 w2 w3 : σ) (r1 r2 r3 : StepResult)
    (h1 : acts.Step1 (stepInput1 cfg inp) w = (Except.ok r1, w1))
    (h2 : acts.Step2 (stepInput2 cfg inp) w1 = (Except.ok r2, w2))
    (h3 : acts.Step3 (stepInput3 cfg inp) w2 = (Except.ok r3, w3)) :
    SagaWorkflow (traced acts) cfg inp { trace := [], inner := w }
      = { result := { Step1ID := r1.ResourceID, Step2ID := r2.ResourceID,
                      Step3ID := r3.ResourceID },
          err := none,
          world := { trace := [Event.Step1 (stepInput1 cfg inp),
                               Event.Step2 (stepInput2 cfg inp),
                               Event.Step3 (stepInput3 cfg inp)], inner := w3 } } := by
  have t1 := traced_Step1 acts _ { trace := [], inner := w } _ w1 h1
  have t2 := traced_Step2 acts (stepInput2 cfg inp)
    { trace := [] ++ [Event.Step1 (stepInput1 cfg inp)], inner := w1 } _ w2 h2
  have t3 := traced_Step3 acts (stepInput3 cfg inp)
    { trace := ([] ++ [Event.Step1 (stepInput1 cfg inp)])
        ++ [Event.Step2 (stepInput2 cfg inp)], inner := w2 } _ w3 h3
  rw [SagaWorkflow_ok (traced acts) cfg inp _ _ _ _ r1 r2 r3 t1 t2 t3]
  rfl

end workflow

namespace workflow

open saga activities config

/-- C1 as stated fails: a Create request whose step 1 succeeds with an empty resource id
and whose step 2 fails makes no Compensator call, where the claim has the one call
`undo(service1, "")`. -/
theorem C1_counterexample :
    fixture.post.Method = "POST"
    ∧ (fixture.scripted (Except.ok { ResourceID := "" })
          (Except.error (GoError.errorf "fail2")) (Except.ok { ResourceID := "c3" }) none).Step1
        (stepInput1 fixture.cfg fixture.post) () = (Except.ok { ResourceID := "" }, ())
    ∧ (fixture.scripted (Except.ok { ResourceID := "" })
          (Except.error (GoError.errorf "fail2")) (Except.ok { ResourceID := "c3" }) none).Step2
        (stepInput2 fixture.cfg fixture.post) () = (Except.error (GoError.errorf "fail2"), ())
    ∧ rollbackCalls (runTrace (fixture.scripted (Except.ok { ResourceID := "" })
          (Except.error (GoError.errorf "fail2")) (Except.ok { ResourceID := "c3" }) none)
        fixture.cfg fixture.post ()) = []
    ∧ rollbackCalls (runTrace (fixture.scripted (Except.ok { ResourceID := "" })
          (Except.error (GoError.errorf "fail2")) (Except.ok { ResourceID := "c3" }) none)
        fixture.cfg fixture.post ()) ≠ [(fixture.cfg.API1BaseURL, "")] := by
  refine ⟨rfl, rfl, rfl, ?_, ?_⟩ <;> decide

/-- C1 (amended): for a Create request, when steps `1..k-1` succeed and step `k` fails,
the Compensator calls are exactly the undo calls `(base URL of service j, id of step j)`
of the steps `j < k` that returned a non-empty id, in decreasing order of `j`; no call is
made for step `k` or later.  When both earlier steps are undone and the two calls differ,
the sequence is not the one in creation order. -/
theorem C1_create_unwinds_in_reverse {σ : Type} (acts : Activities σ) (cfg : Config)
    (inp : OperationInput) (w : σ) (hm : inp.Method = "POST") :
    (∀ (e : GoError) (w1 : σ),
        acts.Step1 (stepInput1 cfg inp) w = (Except.error e, w1) →
        rollbackCalls (runTrace acts cfg inp w) = [])
    ∧ (∀ (r1 : StepResult) (e : GoError) (w1 w2 : σ),
        acts.Step1 (stepInput1 cfg inp) w = (Except.ok r1, w1) →
        acts.Step2 (stepInput2 cfg inp) w1 = (Except.error e, w2) →
        rollbackCalls (runTrace acts cfg inp w)
          = [(cfg.API1BaseURL, r1.ResourceID)].filter (fun p => decide (p.2 ≠ "")))
    ∧ (∀ (r1 r2 : StepResult) (e : GoError) (w1 w2 w3 : σ),
        acts.Step1 (stepInput1 cfg inp) w = (Except.ok r1, w1) →
        acts.Step2 (stepInput2 cfg inp) w1 = (Except.ok r2, w2) →
        acts.Step3 (stepInput3 cfg inp) w2 = (Except.error e, w3) →
        rollbackCalls (runTrace acts cfg inp w)
          = [(cfg.API2BaseURL, r2.ResourceID), (cfg.API1BaseURL, r1.ResourceID)].filter
              (fun p => decide (p.2 ≠ ""))
        ∧ (r1.ResourceID ≠ "" → r2.ResourceID ≠ "" →
            (cfg.API1BaseURL, r1.ResourceID) ≠ (cfg.API2BaseURL, r2.ResourceID) →
            rollbackCalls (runTrace acts cfg inp w)
              ≠ [(cfg.API1BaseURL, r1.ResourceID), (cfg.API2BaseURL, r2.ResourceID)])) := by
  refine ⟨?_, ?_, ?_⟩
  · intro e w1 h1
    unfold runTrace
    rw [tracedRun_fail1 acts cfg inp w w1 e h1]
    rfl
  · intro r1 e w1 w2 h1 h2
    rw [(tracedRun_fail2 acts cfg inp w w1 w2 r1 e h1 h2).2.2]
    by_cases hr : r1.ResourceID = "" <;>
      simp [hm, hr, rollbackCalls, List.filter]
  · intro r1 r2 e w1 w2 w3 h1 h2 h3
    rw [(tracedRun_fail3 acts cfg inp w w1 w2 w3 r1 r2 e h1 h2 h3).2.2]
    refine ⟨?_, ?_⟩
    · by_cases hr1 : r1.ResourceID = "" <;> by_cases hr2 : r2.ResourceID = "" <;>
        simp [hm, hr1, hr2, rollbackCalls, List.filter]
    · intro hr1 hr2 hne
      simp only [hm, hr1, hr2, rollbackCalls, decide_True, Bool.true_eq_false, or_self,
        if_false, List.append_assoc, List.cons_append, List.nil_append, ne_eq,
        List.cons.injEq, and_true]
      intro hcon
      exact hne hcon.1.symm

/-- Witness of C1: the scenario of `Test_Saga_Fail_Step3_Rollback2Then1`, steps 1 and 2
succeed with `a1` and `b2`, step 3 fails. -/
theorem C1_create_unwinds_in_reverse_witness :
    fixture.post.Method = "POST"
    ∧ rollbackCalls (runTrace (fixture.scripted (Except.ok { ResourceID := "a1" })
          (Except.ok { ResourceID := "b2" }) (Except.error (GoError.errorf "fail3")) none)
        fixture.cfg fixture.post ()) = [("u/api2", "b2"), ("u/api1", "a1")] := by
  refine ⟨rfl, ?_⟩
  have t := ((C1_create_unwinds_in_reverse (fixture.scripted (Except.ok { ResourceID := "a1" })
      (Except.ok { ResourceID := "b2" }) (Except.error (GoError.errorf "fail3")) none)
    fixture.cfg fixture.post () rfl).2.2 { ResourceID := "a1" } { ResourceID := "b2" }
    (GoError.errorf "fail3") () () () rfl rfl rfl).1
  rw [t]
  decide

/-- C7: for an Update or Delete request, whatever the activities do and whichever step
fails or none, the run makes no Compensator call. -/
theorem C7_update_delete_never_compensate {σ : Type} (acts : Activities σ) (cfg : Config)
    (inp : OperationInput) (w : σ) (hm : inp.Method = "PUT" ∨ inp.Method = "DELETE") :
    rollbackCalls (runTrace acts cfg inp w) = [] := by
  have hne : inp.Method ≠ "POST" := by
    rcases hm with h | h <;> rw [h] <;> decide
  rcases h1 : acts.Step1 (stepInput1 cfg inp) w with ⟨o1, w1⟩
  cases o1 with
  | error e =>
    unfold runTrace
    rw [tracedRun_fail1 acts cfg inp w w1 e h1]
    rfl
  | ok r1 =>
    rcases h2 : acts.Step2 (stepInput2 cfg inp) w1 with ⟨o2, w2⟩
    cases o2 with
    | error e =>
      rw [(tracedRun_fail2 acts cfg inp w w1 w2 r1 e h1 h2).2.2]
      simp [hne, rollbackCalls]
    | ok r2 =>
      rcases h3 : acts.Step3 (stepInput3 cfg inp) w2 with ⟨o3, w3⟩
      cases o3 with
      | error e =>
        rw [(tracedRun_fail3 acts cfg inp w w1 w2 w3 r1 r2 e h1 h2 h3).2.2]
        simp [hne, rollbackCalls]
      | ok r3 =>
        unfold runTrace
        rw [tracedRun_ok acts cfg inp w w1 w2 w3 r1 r2 r3 h1 h2 h3]
        rfl

/-- Witness of C7: a Delete request whose step 2 fails after step 1 succeeded. -/
theorem C7_update_delete_never_compensate_witness :
    (fixture.deleteOneId.Method = "PUT" ∨ fixture.deleteOneId.Method = "DELETE")
    ∧ rollbackCalls (runTrace (fixture.scripted (Except.ok { ResourceID := "a1" })
          (Except.error (GoError.errorf "fail2")) (Except.ok { ResourceID := "c3" }) none)
        fixture.cfg fixture.deleteOneId ()) = [] :=
  ⟨Or.inr rfl, C7_update_delete_never_compensate _ fixture.cfg fixture.deleteOneId ()
    (Or.inr rfl)⟩

/-- C8: for any request, when the three steps succeed with results `r1`, `r2`, `r3`, the
run returns the result holding the three ids, a nil error, and makes no Compensator
call; the three steps are each invoked once, in order. -/
theorem C8_all_succeed {σ : Type} (acts : Activities σ) (cfg : Config)
    (inp : OperationInput) (w w1 w2 w3 : σ) (r1 r2 r3 : StepResult)
    (h1 : acts.Step1 (stepInput1 cfg inp) w = (Except.ok r1, w1))
    (h2 : acts.Step2 (stepInput2 cfg inp) w1 = (Except.ok r2, w2))
    (h3 : acts.Step3 (stepInput3 cfg inp) w2 = (Except.ok r3, w3)) :
    (SagaWorkflow (traced acts) cfg inp { trace := [], inner := w }).result
        = { Step1ID := r1.ResourceID, Step2ID := r2.ResourceID, Step3ID := r3.ResourceID }
    ∧ (SagaWorkflow (traced acts) cfg inp { trace := [], inner := w }).err = none
    ∧ rollbackCalls (runTrace acts cfg inp w) = []
    ∧ stepCalls (runTrace acts cfg inp w) = [1, 2, 3] := by
  unfold runTrace
  rw [tracedRun_ok acts cfg inp w w1 w2 w3 r1 r2 r3 h1 h2 h3]
  exact ⟨rfl, rfl, rfl, rfl⟩

/-- Witness of C8: the scenario of `Test_Saga_Success`, a Create request answered with
the ids `a1`, `b2`, `c3`. -/
theorem C8_all_succeed_witness :
    (fixture.scripted (Except.ok { ResourceID := "a1" }) (Except.ok { ResourceID := "b2" })
        (Except.ok { ResourceID := "c3" }) none).Step1 (stepInput1 fixture.cfg fixture.post) ()
      = (Except.ok { ResourceID := "a1" }, ())
    ∧ (SagaWorkflow (traced (fixture.scripted (Except.ok { ResourceID := "a1" })
          (Except.ok { ResourceID := "b2" }) (Except.ok { ResourceID := "c3" }) none))
        fixture.cfg fixture.post { trace := [], inner := () }).result
      = { Step1ID := "a1", Step2ID := "b2", Step3ID := "c3" }
    ∧ (SagaWorkflow (traced (fixture.scripted (Except.ok { ResourceID := "a1" })
          (Except.ok { ResourceID := "b2" }) (Except.ok { ResourceID := "c3" }) none))
        fixture.cfg fixture.post { trace := [], inner := () }).err = none
    ∧ rollbackCalls (runTrace (fixture.scripted (Except.ok { ResourceID := "a1" })
          (Except.ok { ResourceID := "b2" }) (Except.ok { ResourceID := "c3" }) none)
        fixture.cfg fixture.post ()) = [] := by
  have t := C8_all_succeed (fixture.scripted (Except.ok { ResourceID := "a1" })
      (Except.ok { ResourceID := "b2" }) (Except.ok { ResourceID := "c3" }) none)
    fixture.cfg fixture.post () () () () { ResourceID := "a1" } { ResourceID := "b2" }
    { ResourceID := "c3" } rfl rfl rfl
  exact ⟨rfl, t.1, t.2.1, t.2.2.1⟩

end workflow

namespace workflow

open saga activities config

/-- C9: for any request, when steps `1..k-1` succeed and step `k` fails with cause `e`,
the steps invoked are exactly `1..k`, the result holds the ids of steps `1..k-1` and
empty slots from `k` on, and the error is the saga error wrapping `e`.  A run that
returns a nil error has invoked all three steps. -/
theorem C9_failure_stops_pipeline {σ : Type} (acts : Activities σ) (cfg : Config)
    (inp : OperationInput) (w : σ) :
    (∀ (e : GoError) (w1 : σ),
        acts.Step1 (stepInput1 cfg inp) w = (Except.error e, w1) →
        (SagaWorkflow (traced acts) cfg inp { trace := [], inner := w }).result
            = { Step1ID := "", Step2ID := "", Step3ID := "" }
        ∧ (SagaWorkflow (traced acts) cfg inp { trace := [], inner := w }).err
            = some (GoError.applicationWithCause "saga failed" "SagaError" e)
        ∧ stepCalls (runTrace acts cfg inp w) = [1])
    ∧ (∀ (r1 : StepResult) (e : GoError) (w1 w2 : σ),
        acts.Step1 (stepInput1 cfg inp) w = (Except.ok r1, w1) →
        acts.Step2 (stepInput2 cfg inp) w1 = (Except.error e, w2) →
        (SagaWorkflow (traced acts) cfg inp { trace := [], inner := w }).result
            = { Step1ID := r1.ResourceID, Step2ID := "", Step3ID := "" }
        ∧ (SagaWorkflow (traced acts) cfg inp { trace := [], inner := w }).err
            = some (GoError.applicationWithCause "saga failed" "SagaError" e)
        ∧ stepCalls (runTrace acts cfg inp w) = [1, 2])
    ∧ (∀ (r1 r2 : StepResult) (e : GoError) (w1 w2 w3 : σ),
        acts.Step1 (stepInput1 cfg inp) w = (Except.ok r1, w1) →
        acts.Step2 (stepInput2 cfg inp) w1 = (Except.ok r2, w2) →
        acts.Step3 (stepInput3 cfg inp) w2 = (Except.error e, w3) →
        (SagaWorkflow (traced acts) cfg inp { trace := [], inner := w }).result
            = { Step1ID := r1.ResourceID, Step2ID := r2.ResourceID, Step3ID := "" }
        ∧ (SagaWorkflow (traced acts) cfg inp { trace := [], inner := w }).err
            = some (GoError.applicationWithCause "saga failed" "SagaError" e)
        ∧ stepCalls (runTrace acts cfg inp w) = [1, 2, 3])
    ∧ ((SagaWorkflow (traced acts) cfg inp { trace := [], inner := w }).err = none →
        stepCalls (runTrace acts cfg inp w) = [1, 2, 3]) := by
  refine ⟨?_, ?_, ?_, ?_⟩
  · intro e w1 h1
    unfold runTrace
    rw [tracedRun_fail1 acts cfg inp w w1 e h1]
    exact ⟨rfl, rfl, rfl⟩
  · intro r1 e w1 w2 h1 h2
    have t := tracedRun_fail2 acts cfg inp w w1 w2 r1 e h1 h2
    refine ⟨t.1, t.2.1, ?_⟩
    rw [t.2.2, stepCalls_append]
    split <;> rfl
  · intro r1 r2 e w1 w2 w3 h1 h2 h3
    have t := tracedRun_fail3 acts cfg inp w w1 w2 w3 r1 r2 e h1 h2 h3
    refine ⟨t.1, t.2.1, ?_⟩
    rw [t.2.2, stepCalls_append, stepCalls_append]
    split <;> split <;> rfl
  · intro hnil
    rcases h1 : acts.Step1 (stepInput1 cfg inp) w with ⟨o1, w1⟩
    cases o1 with
    | error e =>
      rw [tracedRun_fail1 acts cfg inp w w1 e h1] at hnil
      simp at hnil
    | ok r1 =>
      rcases h2 : acts.Step2 (stepInput2 cfg inp) w1 with ⟨o2, w2⟩
      cases o2 with
      | error e =>
        rw [(tracedRun_fail2 acts cfg inp w w1 w2 r1 e h1 h2).2.1] at hnil
        simp at hnil
      | ok r2 =>
        rcases h3 : acts.Step3 (stepInput3 cfg inp) w2 with ⟨o3, w3⟩
        cases o3 with
        | error e =>
          rw [(tracedRun_fail3 acts cfg inp w w1 w2 w3 r1 r2 e h1 h2 h3).2.1] at hnil
          simp at hnil
        | ok r3 =>
          unfold runTrace
          rw [tracedRun_ok acts cfg inp w w1 w2 w3 r1 r2 r3 h1 h2 h3]
          rfl

/-- Witness of C9: the scenario of `Test_Saga_Fail_Step2_Rollback1`, step 1 succeeds
with `a1` and step 2 fails. -/
theorem C9_failure_stops_pipeline_witness :
    (SagaWorkflow (traced (fixture.scripted (Except.ok { ResourceID := "a1" })
          (Except.error (GoError.errorf "fail2")) (Except.ok { ResourceID := "c3" }) none))
        fixture.cfg fixture.post { trace := [], inner := () }).result
      = { Step1ID := "a1", Step2ID := "", Step3ID := "" }
    ∧ (SagaWorkflow (traced (fixture.scripted (Except.ok { ResourceID := "a1" })
          (Except.error (GoError.errorf "fail2")) (Except.ok { ResourceID := "c3" }) none))
        fixture.cfg fixture.post { trace := [], inner := () }).err
      = some (GoError.applicationWithCause "saga failed" "SagaError" (GoError.errorf "fail2"))
    ∧ stepCalls (runTrace (fixture.scripted (Except.ok { ResourceID := "a1" })
          (Except.error (GoError.errorf "fail2")) (Except.ok { ResourceID := "c3" }) none)
        fixture.cfg fixture.post ()) = [1, 2] :=
  (C9_failure_stops_pipeline (fixture.scripted (Except.ok { ResourceID := "a1" })
      (Except.error (GoError.errorf "fail2")) (Except.ok { ResourceID := "c3" }) none)
    fixture.cfg fixture.post ()).2.1 { ResourceID := "a1" } (GoError.errorf "fail2") () ()
    rfl rfl

end workflow

namespace activities

open config

/-- Outside mock mode, an Update or Delete step with an empty resource id returns the
"resource_id required" error from inside the switch and leaves the outside world as it
was: no request is built and none is sent. -/
theorem crudOperation_missing_id (net : Net) (cfg : Config) (inp : StepInput) (w : Outside)
    (hmock : cfg.MockMode = false) (hm : inp.Method = "PUT" ∨ inp.Method = "DELETE")
    (hid : inp.ResourceID = "") :
    crudOperation net cfg inp w
      = (({ ResourceID := "" },
          some (GoError.errorf ("resource_id required for " ++ inp.Method))), w) := by
  unfold crudOperation requestTarget
  rcases hm with h | h <;> simp [hmock, h, hid]

end activities

namespace workflow

open saga activities config

/-- An activity that fails without changing the state fails the invocation, however
many retries are left, and the state is unchanged. -/
theorem attempt_of_stable_failure {σ β : Type} (act : σ → (β × Option GoError) × σ)
    (retries : Nat) (w : σ) (r : β) (e : GoError) (h : act w = ((r, some e), w)) :
    attempt act retries w = (Except.error e, w) := by
  induction retries with
  | zero => simp [attempt, h]
  | succ n ih => simp [attempt, h, ih]

/-- With `shouldRollback` false the closure `rollback1` does nothing. -/
theorem rollback1_off {σ : Type} (acts : Activities σ) (cfg : Config) (c : Frame σ) :
    rollback1 acts cfg false c = (none, c) := by
  simp [rollback1]

/-- With `shouldRollback` false the closure `comp2` does nothing. -/
theorem comp2_off {σ : Type} (acts : Activities σ) (cfg : Config) (c : Frame σ) :
    comp2 acts cfg false c = (none, c) := by
  simp [comp2]

/-- C10 as stated fails: in mock mode an Update request without ids has its step 1
succeed with an empty id, and steps 2 and 3 run as well; the run returns a nil error. -/
theorem C10_counterexample :
    fixture.cfgMock.MockMode = true
    ∧ fixture.putNoIds.Method = "PUT" ∧ fixture.putNoIds.ID1 = ""
    ∧ (deployed fixture.netOk fixture.cfgMock 2).Step1
        (stepInput1 fixture.cfgMock fixture.putNoIds) fixture.fresh
      = (Except.ok { ResourceID := "" }, fixture.fresh)
    ∧ (SagaWorkflow (traced (deployed fixture.netOk fixture.cfgMock 2)) fixture.cfgMock
        fixture.putNoIds { trace := [], inner := fixture.fresh }).err = none
    ∧ stepCalls (runTrace (deployed fixture.netOk fixture.cfgMock 2) fixture.cfgMock
        fixture.putNoIds fixture.fresh) = [1, 2, 3] := by
  refine ⟨rfl, rfl, rfl, rfl, ?_, ?_⟩ <;> decide

/-- C10 (amended): when the worker's configuration is not in mock mode, for an Update or
Delete request in which the id of a reached step `i` is empty, the invocation of step `i`
returns the "resource_id required" error and leaves the outside world untouched (no
request is sent, with any number of retries), the run returns the saga error wrapping it,
the outside world at the end is the one step `i` found, and the steps invoked are
exactly `1..i`. -/
theorem C10_missing_id_fails_step (net : Net) (wcfg cfg : Config) (inp : OperationInput)
    (retries : Nat) (w : Outside) (hmock : wcfg.MockMode = false)
    (hm : inp.Method = "PUT" ∨ inp.Method = "DELETE") :
    (inp.ID1 = "" →
        (deployed net wcfg retries).Step1 (stepInput1 cfg inp) w
          = (Except.error (GoError.errorf ("resource_id required for " ++ inp.Method)), w)
        ∧ (SagaWorkflow (traced (deployed net wcfg retries)) cfg inp
            { trace := [], inner := w }).err
          = some (GoError.applicationWithCause "saga failed" "SagaError"
              (GoError.errorf ("resource_id required for " ++ inp.Method)))
        ∧ (SagaWorkflow (traced (deployed net wcfg retries)) cfg inp
            { trace := [], inner := w }).world.inner = w
        ∧ stepCalls (runTrace (deployed net wcfg retries) cfg inp w) = [1])
    ∧ (∀ (r1 : StepResult) (w1 : Outside),
        (deployed net wcfg retries).Step1 (stepInput1 cfg inp) w = (Except.ok r1, w1) →
        inp.ID2 = "" →
        (deployed net wcfg retries).Step2 (stepInput2 cfg inp) w1
          = (Except.error (GoError.errorf ("resource_id required for " ++ inp.Method)), w1)
        ∧ (SagaWorkflow (traced (deployed net wcfg retries)) cfg inp
            { trace := [], inner := w }).err
          = some (GoError.applicationWithCause "saga failed" "SagaError"
              (GoError.errorf ("resource_id required for " ++ inp.Method)))
        ∧ (SagaWorkflow (traced (deployed net wcfg retries)) cfg inp
            { trace := [], inner := w }).world.inner = w1
        ∧ stepCalls (runTrace (deployed net wcfg retries) cfg inp w) = [1, 2])
    ∧ (∀ (r1 r2 : StepResult) (w1 w2 : Outside),
        (deployed net wcfg retries).Step1 (stepInput1 cfg inp) w = (Except.ok r1, w1) →
        (deployed net wcfg retries).Step2 (stepInput2 cfg inp) w1 = (Except.ok r2, w2) →
        inp.ID3 = "" →
        (deployed net wcfg retries).Step3 (stepInput3 cfg inp) w2
          = (Except.error (GoError.errorf ("resource_id required for " ++ inp.Method)), w2)
        ∧ (SagaWorkflow (traced (deployed net wcfg retries)) cfg inp
            { trace := [], inner := w }).err
          = some (GoError.applicationWithCause "saga failed" "SagaError"
              (GoError.errorf ("resource_id required for " ++ inp.Method)))
        ∧ (SagaWorkflow (traced (deployed net wcfg retries)) cfg inp
            { trace := [], inner := w }).world.inner = w2
        ∧ stepCalls (runTrace (deployed net wcfg retries) cfg inp w) = [1, 2, 3]) := by
  have hne : inp.Method ≠ "POST" := by
    rcases hm with h | h <;> rw [h] <;> decide
  have hb : decide (inp.Method = "POST") = false := by simp [hne]
  have hstep : ∀ (i : StepInput) (v : Outside), i.Method = inp.Method → i.ResourceID = "" →
      attempt (crudOperation net wcfg i) retries v
        = (Except.error (GoError.errorf ("resource_id required for " ++ inp.Method)), v) := by
    intro i v hmi hid
    have hc := crudOperation_missing_id net wcfg i v hmock (by rw [hmi]; exact hm) hid
    rw [hmi] at hc
    exact attempt_of_stable_failure _ retries v _ _ hc
  refine ⟨?_, ?_, ?_⟩
  · intro hid
    have s1 : (deployed net wcfg retries).Step1 (stepInput1 cfg inp) w
        = (Except.error (GoError.errorf ("resource_id required for " ++ inp.Method)), w) :=
      hstep (stepInput1 cfg inp) w rfl hid
    refine ⟨s1, ?_⟩
    unfold runTrace
    rw [tracedRun_fail1 _ cfg inp w w _ s1]
    exact ⟨rfl, rfl, rfl⟩
  · intro r1 w1 h1 hid
    have s2 : (deployed net wcfg retries).Step2 (stepInput2 cfg inp) w1
        = (Except.error (GoError.errorf ("resource_id required for " ++ inp.Method)), w1) :=
      hstep (stepInput2 cfg inp) w1 rfl hid
    have t := tracedRun_fail2 _ cfg inp w w1 w1 r1 _ h1 s2
    refine ⟨s2, t.2.1, ?_, ?_⟩
    · have t1 := traced_Step1 (deployed net wcfg retries) _ { trace := [], inner := w } _ w1 h1
      have t2 := traced_Step2 (deployed net wcfg retries) (stepInput2 cfg inp)
        { trace := [] ++ [Event.Step1 (stepInput1 cfg inp)], inner := w1 } _ w1 s2
      rw [SagaWorkflow_fail2 _ cfg inp _ _ _ r1 _ t1 t2, hb, rollback1_off]
    · rw [t.2.2, stepCalls_append]
      simp [hb, stepCalls]
  · intro r1 r2 w1 w2 h1 h2 hid
    have s3 : (deployed net wcfg retries).Step3 (stepInput3 cfg inp) w2
        = (Except.error (GoError.errorf ("resource_id required for " ++ inp.Method)), w2) :=
      hstep (stepInput3 cfg inp) w2 rfl hid
    have t := tracedRun_fail3 _ cfg inp w w1 w2 w2 r1 r2 _ h1 h2 s3
    refine ⟨s3, t.2.1, ?_, ?_⟩
    · have t1 := traced_Step1 (deployed net wcfg retries) _ { trace := [], inner := w } _ w1 h1
      have t2 := traced_Step2 (deployed net wcfg retries) (stepInput2 cfg inp)
        { trace := [] ++ [Event.Step1 (stepInput1 cfg inp)], inner := w1 } _ w2 h2
      have t3 := traced_Step3 (deployed net wcfg retries) (stepInput3 cfg inp)
        { trace := ([] ++ [Event.Step1 (stepInput1 cfg inp)])
            ++ [Event.Step2 (stepInput2 cfg inp)], inner := w2 } _ w2 s3
      rw [SagaWorkflow_fail3 _ cfg inp _ _ _ _ r1 r2 _ t1 t2 t3, hb, comp2_off, rollback1_off]
    · rw [t.2.2, stepCalls_append, stepCalls_append]
      simp [hb, stepCalls]

/-- Witness of C10: a Delete request with the first id given and the second empty, on a
network that answers `200`: step 1 sends its one request, step 2 fails and sends none,
step 3 is not invoked. -/
theorem C10_missing_id_fails_step_witness :
    fixture.cfg.MockMode = false
    ∧ (fixture.deleteOneId.Method = "PUT" ∨ fixture.deleteOneId.Method = "DELETE")
    ∧ fixture.deleteOneId.ID2 = ""
    ∧ (SagaWorkflow (traced (deployed fixture.netOk fixture.cfg 2)) fixture.cfg
        fixture.deleteOneId { trace := [], inner := fixture.fresh }).world.inner
      = { requests := [{ method := "DELETE", url := "u/api1/a1", body := "", headers :=
            [("Content-Type", "application/json")] }], clockReads := 0 }
    ∧ stepCalls (runTrace (deployed fixture.netOk fixture.cfg 2) fixture.cfg
        fixture.deleteOneId fixture.fresh) = [1, 2] := by
  have t := (C10_missing_id_fails_step fixture.netOk fixture.cfg fixture.cfg
    fixture.deleteOneId 2 fixture.fresh rfl (Or.inr rfl)).2.1 { ResourceID := "a1" }
    { requests := [{ method := "DELETE", url := "u/api1/a1", body := "", headers :=
        [("Content-Type", "application/json")] }], clockReads := 0 } rfl rfl
  exact ⟨rfl, Or.inr rfl, rfl, t.2.2.1, t.2.2.2⟩

end workflow

namespace workflow

open saga activities config

/-- The empty-id case is reachable with the deployed activities: on a network where the
Create of service 2 is answered `200` without an id and service 3 answers `500`, steps 1
and 2 succeed, step 3 fails, and the only Compensator call is the undo of step 1. -/
theorem create_empty_id_not_undone_deployed :
    (SagaWorkflow (traced (deployed fixture.netNoId2Fail3 fixture.cfg 2)) fixture.cfg
        fixture.post { trace := [], inner := fixture.fresh }).result
      = { Step1ID := "a1", Step2ID := "", Step3ID := "" }
    ∧ stepCalls (runTrace (deployed fixture.netNoId2Fail3 fixture.cfg 2) fixture.cfg
        fixture.post fixture.fresh) = [1, 2, 3]
    ∧ rollbackCalls (runTrace (deployed fixture.netNoId2Fail3 fixture.cfg 2) fixture.cfg
        fixture.post fixture.fresh) = [("u/api1", "a1")] := by
  refine ⟨?_, ?_, ?_⟩ <;> decide

end workflow

namespace saga

/-- Running two lists of rollbacks one after the other. -/
theorem runInOrder_state_append {S : Type} (a b : List (Rollback S)) (w : S) :
    (runInOrder (a ++ b) w).2 = (runInOrder b (runInOrder a w).2).2 := by
  induction a generalizing w with
  | nil => rfl
  | cons r a ih => simp [runInOrder, ih]

/-- C11 as stated fails: on a saga holding the logging rollbacks `1` and `2`, the first
`Fail` logs `2, 1` and a second `Fail` logs `2, 1` once more. -/
theorem C11_counterexample :
    ((addAll [probe 1 none, probe 2 none]).Fail (some (GoError.errorf "boom")) []).2 = [2, 1]
    ∧ ((addAll [probe 1 none, probe 2 none]).Fail (some (GoError.errorf "boom"))
        ((addAll [probe 1 none, probe 2 none]).Fail (some (GoError.errorf "boom")) []).2).2
      = [2, 1, 2, 1]
    ∧ ((addAll [probe 1 none, probe 2 none]).Fail (some (GoError.errorf "boom"))
        ((addAll [probe 1 none, probe 2 none]).Fail (some (GoError.errorf "boom")) []).2).2
      ≠ ((addAll [probe 1 none, probe 2 none]).Fail (some (GoError.errorf "boom")) []).2 := by
  refine ⟨?_, ?_, ?_⟩ <;> decide

end saga

namespace workflow

open saga activities config

/-- The guard of a closure and the condition of `undoEvents` give the same log entries. -/
theorem undoEvents_eq (m url id : String) :
    (if decide (m = "POST") = false ∨ id = "" then []
      else [Event.Rollback url id]) = undoEvents m url id := by
  unfold undoEvents
  by_cases hm : m = "POST" <;> by_cases hi : id = "" <;> simp [hm, hi]

/-- The log of any run of `SagaWorkflow` has one of four shapes, by the first step that
fails: the steps up to that one, in order, followed only by the undo of the steps before
it, latest first. -/
theorem runTrace_shape {σ : Type} (acts : Activities σ) (cfg : Config)
    (inp : OperationInput) (v : σ) :
    (∃ (e : GoError) (w1 : σ),
        acts.Step1 (stepInput1 cfg inp) v = (Except.error e, w1)
        ∧ runTrace acts cfg inp v = [Event.Step1 (stepInput1 cfg inp)])
    ∨ (∃ (r1 : StepResult) (e : GoError) (w1 w2 : σ),
        acts.Step1 (stepInput1 cfg inp) v = (Except.ok r1, w1)
        ∧ acts.Step2 (stepInput2 cfg inp) w1 = (Except.error e, w2)
        ∧ runTrace acts cfg inp v
          = [Event.Step1 (stepInput1 cfg inp), Event.Step2 (stepInput2 cfg inp)]
            ++ undoEvents inp.Method cfg.API1BaseURL r1.ResourceID)
    ∨ (∃ (r1 r2 : StepResult) (e : GoError) (w1 w2 w3 : σ),
        acts.Step1 (stepInput1 cfg inp) v = (Except.ok r1, w1)
        ∧ acts.Step2 (stepInput2 cfg inp) w1 = (Except.ok r2, w2)
        ∧ acts.Step3 (stepInput3 cfg inp) w2 = (Except.error e, w3)
        ∧ runTrace acts cfg inp v
          = [Event.Step1 (stepInput1 cfg inp), Event.Step2 (stepInput2 cfg inp),
             Event.Step3 (stepInput3 cfg inp)]
            ++ undoEvents inp.Method cfg.API2BaseURL r2.ResourceID
            ++ undoEvents inp.Method cfg.API1BaseURL r1.ResourceID)
    ∨ (∃ (r1 r2 r3 : StepResult) (w1 w2 w3 : σ),
        acts.Step1 (stepInput1 cfg inp) v = (Except.ok r1, w1)
        ∧ acts.Step2 (stepInput2 cfg inp) w1 = (Except.ok r2, w2)
        ∧ acts.Step3 (stepInput3 cfg inp) w2 = (Except.ok r3, w3)
        ∧ runTrace acts cfg inp v
          = [Event.Step1 (stepInput1 cfg inp), Event.Step2 (stepInput2 cfg inp),
             Event.Step3 (stepInput3 cfg inp)]) := by
  rcases h1 : acts.Step1 (stepInput1 cfg inp) v with ⟨o1, w1⟩
  cases o1 with
  | error e =>
    refine Or.inl ⟨e, w1, rfl, ?_⟩
    unfold runTrace
    rw [tracedRun_fail1 acts cfg inp v w1 e h1]
  | ok r1 =>
    rcases h2 : acts.Step2 (stepInput2 cfg inp) w1 with ⟨o2, w2⟩
    cases o2 with
    | error e =>
      refine Or.inr (Or.inl ⟨r1, e, w1, w2, rfl, h2, ?_⟩)
      rw [(tracedRun_fail2 acts cfg inp v w1 w2 r1 e h1 h2).2.2, undoEvents_eq]
    | ok r2 =>
      rcases h3 : acts.Step3 (stepInput3 cfg inp) w2 with ⟨o3, w3⟩
      cases o3 with
      | error e =>
        refine Or.inr (Or.inr (Or.inl ⟨r1, r2, e, w1, w2, w3, rfl, h2, h3, ?_⟩))
        rw [(tracedRun_fail3 acts cfg inp v w1 w2 w3 r1 r2 e h1 h2 h3).2.2, undoEvents_eq,
          undoEvents_eq]
      | ok r3 =>
        refine Or.inr (Or.inr (Or.inr ⟨r1, r2, r3, w1, w2, w3, rfl, h2, h3, ?_⟩))
        unfold runTrace
        rw [tracedRun_ok acts cfg inp v w1 w2 w3 r1 r2 r3 h1 h2 h3]

/-- C11 (amended): `Fail` does not drain the sequence.  A second `Fail` on the same saga,
with any causes, leaves the state that results from running every registered rollback
last to first and then every one of them last to first again; with logging rollbacks the
log grows by the reversed tags twice.  A run of `SagaWorkflow` unwinds once only: its log
is the invocations of steps `1..k` up to the first step that fails (all three when none
fails), followed by nothing but the undo of the steps `k-1..1`, latest first, each made of
one Compensator call when the method is POST and the id of the step is non-empty and of
none otherwise; so no step runs after the unwind, no step is undone twice, and the
Compensator calls are fewer than the steps invoked. -/
theorem C11_second_Fail_runs_rollbacks_again {S : Type} (s : Saga S)
    (c1 c2 : Option GoError) (w : S) :
    (s.Fail c2 (s.Fail c1 w).2).2
        = (runInOrder (s.rollbacks.reverse ++ s.rollbacks.reverse) w).2
    ∧ (∀ (ps : List (Nat × Option GoError)) (log : List Nat),
        ((addAll (ps.map fun p => probe p.1 p.2)).Fail c2
            ((addAll (ps.map fun p => probe p.1 p.2)).Fail c1 log).2).2
          = log ++ (ps.map Prod.fst).reverse ++ (ps.map Prod.fst).reverse)
    ∧ (∀ {σ : Type} (acts : Activities σ) (cfg : Config) (inp : OperationInput) (v : σ),
        (∃ (e : GoError) (w1 : σ),
            acts.Step1 (stepInput1 cfg inp) v = (Except.error e, w1)
            ∧ runTrace acts cfg inp v = [Event.Step1 (stepInput1 cfg inp)])
        ∨ (∃ (r1 : StepResult) (e : GoError) (w1 w2 : σ),
            acts.Step1 (stepInput1 cfg inp) v = (Except.ok r1, w1)
            ∧ acts.Step2 (stepInput2 cfg inp) w1 = (Except.error e, w2)
            ∧ runTrace acts cfg inp v
              = [Event.Step1 (stepInput1 cfg inp), Event.Step2 (stepInput2 cfg inp)]
                ++ undoEvents inp.Method cfg.API1BaseURL r1.ResourceID)
        ∨ (∃ (r1 r2 : StepResult) (e : GoError) (w1 w2 w3 : σ),
            acts.Step1 (stepInput1 cfg inp) v = (Except.ok r1, w1)
            ∧ acts.Step2 (stepInput2 cfg inp) w1 = (Except.ok r2, w2)
            ∧ acts.Step3 (stepInput3 cfg inp) w2 = (Except.error e, w3)
            ∧ runTrace acts cfg inp v
              = [Event.Step1 (stepInput1 cfg inp), Event.Step2 (stepInput2 cfg inp),
                 Event.Step3 (stepInput3 cfg inp)]
                ++ undoEvents inp.Method cfg.API2BaseURL r2.ResourceID
                ++ undoEvents inp.Method cfg.API1BaseURL r1.ResourceID)
        ∨ (∃ (r1 r2 r3 : StepResult) (w1 w2 w3 : σ),
            acts.Step1 (stepInput1 cfg inp) v = (Except.ok r1, w1)
            ∧ acts.Step2 (stepInput2 cfg inp) w1 = (Except.ok r2, w2)
            ∧ acts.Step3 (stepInput3 cfg inp) w2 = (Except.ok r3, w3)
            ∧ runTrace acts cfg inp v
              = [Event.Step1 (stepInput1 cfg inp), Event.Step2 (stepInput2 cfg inp),
                 Event.Step3 (stepInput3 cfg inp)]))
    ∧ (∀ {σ : Type} (acts : Activities σ) (cfg : Config) (inp : OperationInput) (v : σ),
        (rollbackCalls (runTrace acts cfg inp v)).length + 1
          ≤ (stepCalls (runTrace acts cfg inp v)).length) := by
  refine ⟨?_, ?_, ?_, ?_⟩
  · rw [Fail_state, Fail_state, runInOrder_state_append]
  · intro ps log
    rw [Fail_state, Fail_state, addAll_rollbacks, ← List.map_reverse, runInOrder_probes,
      runInOrder_probes, List.map_reverse]
  · intro σ acts cfg inp v
    exact runTrace_shape acts cfg inp v
  · intro σ acts cfg inp v
    rcases runTrace_shape acts cfg inp v with ⟨e, w1, _, ht⟩ | ⟨r1, e, w1, w2, _, _, ht⟩ |
      ⟨r1, r2, e, w1, w2, w3, _, _, _, ht⟩ | ⟨r1, r2, r3, w1, w2, w3, _, _, _, ht⟩
    · rw [ht]
      simp [rollbackCalls, stepCalls]
    · rw [ht, rollbackCalls_append, stepCalls_append]
      unfold undoEvents
      split <;> simp [rollbackCalls, stepCalls]
    · rw [ht, rollbackCalls_append, stepCalls_append, rollbackCalls_append, stepCalls_append]
      unfold undoEvents
      split <;> split <;> simp [rollbackCalls, stepCalls]
    · rw [ht]
      simp [rollbackCalls, stepCalls]

/-- C12 as stated fails: when step 1 of a Create request succeeded with an empty id, the
runs that fail at step 2 with an application error and with a time-out both make no
Compensator call, where the claim has the one call `undo(service1, "")`. -/
theorem C12_counterexample :
    fixture.post.Method = "POST"
    ∧ rollbackCalls (runTrace (fixture.scripted (Except.ok { ResourceID := "" })
          (Except.error (GoError.errorf "external API error: 500 fail2"))
          (Except.ok { ResourceID := "c3" }) none) fixture.cfg fixture.post ()) = []
    ∧ rollbackCalls (runTrace (fixture.scripted (Except.ok { ResourceID := "" })
          (Except.error (GoError.errorf "activity StartToClose timeout"))
          (Except.ok { ResourceID := "c3" }) none) fixture.cfg fixture.post ()) = []
    ∧ rollbackCalls (runTrace (fixture.scripted (Except.ok { ResourceID := "" })
          (Except.error (GoError.errorf "activity StartToClose timeout"))
          (Except.ok { ResourceID := "c3" }) none) fixture.cfg fixture.post ())
      ≠ [(fixture.cfg.API1BaseURL, "")] := by
  refine ⟨rfl, ?_, ?_, ?_⟩ <;> decide

/-- C12 (amended): for a Create request, two runs (on any two outside worlds) in which
step 1 succeeds with the same id and step 2 fails, with causes `e` and `e2`, return the
same result, holding that id alone, and make the same Compensator calls: the one call
`undo(service1, id)` when the id is non-empty, none when it is empty.  Each returned error
is the saga error wrapping the cause of its run, so the two errors are equal exactly
when the causes are. -/
theorem C12_same_unwind_for_any_cause {σ τ : Type} (acts : Activities σ)
    (acts2 : Activities τ) (cfg : Config) (inp : OperationInput) (w w1 w2 : σ)
    (v v1 v2 : τ) (r1 r2 : StepResult) (e e2 : GoError) (hm : inp.Method = "POST")
    (h1 : acts.Step1 (stepInput1 cfg inp) w = (Except.ok r1, w1))
    (h2 : acts.Step2 (stepInput2 cfg inp) w1 = (Except.error e, w2))
    (g1 : acts2.Step1 (stepInput1 cfg inp) v = (Except.ok r2, v1))
    (g2 : acts2.Step2 (stepInput2 cfg inp) v1 = (Except.error e2, v2))
    (hid : r1.ResourceID = r2.ResourceID) :
    (SagaWorkflow (traced acts) cfg inp { trace := [], inner := w }).result
        = (SagaWorkflow (traced acts2) cfg inp { trace := [], inner := v }).result
    ∧ (SagaWorkflow (traced acts) cfg inp { trace := [], inner := w }).result
        = { Step1ID := r1.ResourceID, Step2ID := "", Step3ID := "" }
    ∧ rollbackCalls (runTrace acts cfg inp w) = rollbackCalls (runTrace acts2 cfg inp v)
    ∧ rollbackCalls (runTrace acts cfg inp w)
        = [(cfg.API1BaseURL, r1.ResourceID)].filter (fun p => decide (p.2 ≠ ""))
    ∧ (SagaWorkflow (traced acts) cfg inp { trace := [], inner := w }).err
        = some (GoError.applicationWithCause "saga failed" "SagaError" e)
    ∧ (SagaWorkflow (traced acts2) cfg inp { trace := [], inner := v }).err
        = some (GoError.applicationWithCause "saga failed" "SagaError" e2)
    ∧ ((SagaWorkflow (traced acts) cfg inp { trace := [], inner := w }).err
        = (SagaWorkflow (traced acts2) cfg inp { trace := [], inner := v }).err ↔ e = e2) := by
  have t := tracedRun_fail2 acts cfg inp w w1 w2 r1 e h1 h2
  have u := tracedRun_fail2 acts2 cfg inp v v1 v2 r2 e2 g1 g2
  refine ⟨?_, t.1, ?_, ?_, t.2.1, u.2.1, ?_⟩
  · rw [t.1, u.1, hid]
  · rw [t.2.2, u.2.2, hid]
  · rw [t.2.2]
    by_cases hr : r1.ResourceID = "" <;> simp [hm, hr, rollbackCalls, List.filter]
  · rw [t.2.1, u.2.1]
    simp

/-- Witness of C12: the scenarios of `Test_Saga_Fail_Step2_Rollback1` and
`Test_Saga_Timeout_Rollback1`, step 1 succeeds with `a1` and step 2 fails with an
application error in one run and with a time-out in the other. -/
theorem C12_same_unwind_for_any_cause_witness :
    fixture.post.Method = "POST"
    ∧ rollbackCalls (runTrace (fixture.scripted (Except.ok { ResourceID := "a1" })
          (Except.error (GoError.errorf "external API error: 500 fail2"))
          (Except.ok { ResourceID := "c3" }) none) fixture.cfg fixture.post ())
      = rollbackCalls (runTrace (fixture.scripted (Except.ok { ResourceID := "a1" })
          (Except.error (GoError.errorf "activity StartToClose timeout"))
          (Except.ok { ResourceID := "c3" }) none) fixture.cfg fixture.post ())
    ∧ rollbackCalls (runTrace (fixture.scripted (Except.ok { ResourceID := "a1" })
          (Except.error (GoError.errorf "external API error: 500 fail2"))
          (Except.ok { ResourceID := "c3" }) none) fixture.cfg fixture.post ())
      = [("u/api1", "a1")] := by
  have t := C12_same_unwind_for_any_cause
    (fixture.scripted (Except.ok { ResourceID := "a1" })
      (Except.error (GoError.errorf "external API error: 500 fail2"))
      (Except.ok { ResourceID := "c3" }) none)
    (fixture.scripted (Except.ok { ResourceID := "a1" })
      (Except.error (GoError.errorf "activity StartToClose timeout"))
      (Except.ok { ResourceID := "c3" }) none)
    fixture.cfg fixture.post () () () () () () { ResourceID := "a1" } { ResourceID := "a1" }
    (GoError.errorf "external API error: 500 fail2")
    (GoError.errorf "activity StartToClose timeout") rfl rfl rfl rfl rfl rfl
  refine ⟨rfl, t.2.2.1, ?_⟩
  rw [t.2.2.2.1]
  decide

end workflow

namespace workflow

open saga activities config

/-- The log after the closure `comp3` of the logging activities. -/
theorem comp3_trace {σ : Type} (acts : Activities σ) (cfg : Config) (b : Bool)
    (c : Frame (Traced σ)) :
    (comp3 (traced acts) cfg b c).2.world.trace
      = c.world.trace ++ (if b = false ∨ c.result.Step3ID = "" then []
          else [Event.Rollback cfg.API3BaseURL c.result.Step3ID]) := by
  unfold comp3 Frame.run
  split
  · simp
  · simp [traced]

/-- The guard of the closures, read as a condition on the method and the id. -/
theorem guard_iff (m id : String) :
    (decide (m = "POST") = false ∨ id = "") ↔ ¬ (m = "POST" ∧ id ≠ "") := by
  by_cases hm : m = "POST" <;> by_cases hi : id = "" <;> simp [hm, hi]

/-- C13: the compensation of step `i`, called on a frame whose slot `i` holds `id`, makes
the one Compensator call `(base URL of service i, id)` and returns what that call
returns when the method is POST and `id` is non-empty, and otherwise makes no call,
returns nil and changes nothing.  When the unwind runs after a failure of step 2 or of
step 3, the slots of the frame hold the ids the earlier steps returned. -/
theorem C13_compensation_guard {σ : Type} (acts : Activities σ) (cfg : Config)
    (inp : OperationInput) (c : Frame (Traced σ)) :
    ((rollback1 (traced acts) cfg (decide (inp.Method = "POST")) c).2.world.trace
        = c.world.trace ++ (if inp.Method = "POST" ∧ c.result.Step1ID ≠ "" then
            [Event.Rollback cfg.API1BaseURL c.result.Step1ID] else [])
      ∧ (inp.Method = "POST" ∧ c.result.Step1ID ≠ "" →
          rollback1 (traced acts) cfg (decide (inp.Method = "POST")) c
            = Frame.run ((traced acts).Rollback cfg.API1BaseURL c.result.Step1ID) c)
      ∧ (¬ (inp.Method = "POST" ∧ c.result.Step1ID ≠ "") →
          rollback1 (traced acts) cfg (decide (inp.Method = "POST")) c = (none, c)))
    ∧ ((comp2 (traced acts) cfg (decide (inp.Method = "POST")) c).2.world.trace
        = c.world.trace ++ (if inp.Method = "POST" ∧ c.result.Step2ID ≠ "" then
            [Event.Rollback cfg.API2BaseURL c.result.Step2ID] else [])
      ∧ (inp.Method = "POST" ∧ c.result.Step2ID ≠ "" →
          comp2 (traced acts) cfg (decide (inp.Method = "POST")) c
            = Frame.run ((traced acts).Rollback cfg.API2BaseURL c.result.Step2ID) c)
      ∧ (¬ (inp.Method = "POST" ∧ c.result.Step2ID ≠ "") →
          comp2 (traced acts) cfg (decide (inp.Method = "POST")) c = (none, c)))
    ∧ ((comp3 (traced acts) cfg (decide (inp.Method = "POST")) c).2.world.trace
        = c.world.trace ++ (if inp.Method = "POST" ∧ c.result.Step3ID ≠ "" then
            [Event.Rollback cfg.API3BaseURL c.result.Step3ID] else [])
      ∧ (inp.Method = "POST" ∧ c.result.Step3ID ≠ "" →
          comp3 (traced acts) cfg (decide (inp.Method = "POST")) c
            = Frame.run ((traced acts).Rollback cfg.API3BaseURL c.result.Step3ID) c)
      ∧ (¬ (inp.Method = "POST" ∧ c.result.Step3ID ≠ "") →
          comp3 (traced acts) cfg (decide (inp.Method = "POST")) c = (none, c)))
    ∧ (∀ (w w1 w2 : σ) (r1 : StepResult) (e : GoError),
        acts.Step1 (stepInput1 cfg inp) w = (Except.ok r1, w1) →
        acts.Step2 (stepInput2 cfg inp) w1 = (Except.error e, w2) →
        (SagaWorkflow (traced acts) cfg inp { trace := [], inner := w }).world
          = (rollback1 (traced acts) cfg (decide (inp.Method = "POST"))
              { result := { Step1ID := r1.ResourceID, Step2ID := "", Step3ID := "" },
                world := { trace := [Event.Step1 (stepInput1 cfg inp),
                                     Event.Step2 (stepInput2 cfg inp)],
                           inner := w2 } }).2.world)
    ∧ (∀ (w w1 w2 w3 : σ) (r1 r2 : StepResult) (e : GoError),
        acts.Step1 (stepInput1 cfg inp) w = (Except.ok r1, w1) →
        acts.Step2 (stepInput2 cfg inp) w1 = (Except.ok r2, w2) →
        acts.Step3 (stepInput3 cfg inp) w2 = (Except.error e, w3) →
        (SagaWorkflow (traced acts) cfg inp { trace := [], inner := w }).world
          = (rollback1 (traced acts) cfg (decide (inp.Method = "POST"))
              (comp2 (traced acts) cfg (decide (inp.Method = "POST"))
                { result := { Step1ID := r1.ResourceID, Step2ID := r2.ResourceID,
                              Step3ID := "" },
                  world := { trace := [Event.Step1 (stepInput1 cfg inp),
                                       Event.Step2 (stepInput2 cfg inp),
                                       Event.Step3 (stepInput3 cfg inp)],
                             inner := w3 } }).2).2.world) := by
  refine ⟨⟨?_, ?_, ?_⟩, ⟨?_, ?_, ?_⟩, ⟨?_, ?_, ?_⟩, ?_, ?_⟩
  · rw [rollback1_trace]
    by_cases hg : inp.Method = "POST" ∧ c.result.Step1ID ≠ ""
    · rw [if_neg (fun h => (guard_iff _ _).1 h hg), if_pos hg]
    · rw [if_pos ((guard_iff _ _).2 hg), if_neg hg]
  · intro hg
    unfold rollback1
    rw [if_neg (fun h => (guard_iff _ _).1 h hg)]
  · intro hg
    unfold rollback1
    rw [if_pos ((guard_iff _ _).2 hg)]
  · rw [comp2_trace]
    by_cases hg : inp.Method = "POST" ∧ c.result.Step2ID ≠ ""
    · rw [if_neg (fun h => (guard_iff _ _).1 h hg), if_pos hg]
    · rw [if_pos ((guard_iff _ _).2 hg), if_neg hg]
  · intro hg
    unfold comp2
    rw [if_neg (fun h => (guard_iff _ _).1 h hg)]
  · intro hg
    unfold comp2
    rw [if_pos ((guard_iff _ _).2 hg)]
  · rw [comp3_trace]
    by_cases hg : inp.Method = "POST" ∧ c.result.Step3ID ≠ ""
    · rw [if_neg (fun h => (guard_iff _ _).1 h hg), if_pos hg]
    · rw [if_pos ((guard_iff _ _).2 hg), if_neg hg]
  · intro hg
    unfold comp3
    rw [if_neg (fun h => (guard_iff _ _).1 h hg)]
  · intro hg
    unfold comp3
    rw [if_pos ((guard_iff _ _).2 hg)]
  · intro w w1 w2 r1 e h1 h2
    have t1 := traced_Step1 acts _ { trace := [], inner := w } _ w1 h1
    have t2 := traced_Step2 acts (stepInput2 cfg inp)
      { trace := [] ++ [Event.Step1 (stepInput1 cfg inp)], inner := w1 } _ w2 h2
    rw [SagaWorkflow_fail2 (traced acts) cfg inp _ _ _ r1 e t1 t2]
    rfl
  · intro w w1 w2 w3 r1 r2 e h1 h2 h3
    have t1 := traced_Step1 acts _ { trace := [], inner := w } _ w1 h1
    have t2 := traced_Step2 acts (stepInput2 cfg inp)
      { trace := [] ++ [Event.Step1 (stepInput1 cfg inp)], inner := w1 } _ w2 h2
    have t3 := traced_Step3 acts (stepInput3 cfg inp)
      { trace := ([] ++ [Event.Step1 (stepInput1 cfg inp)])
          ++ [Event.Step2 (stepInput2 cfg inp)], inner := w2 } _ w3 h3
    rw [SagaWorkflow_fail3 (traced acts) cfg inp _ _ _ _ r1 r2 e t1 t2 t3]
    rfl

/-- Witness of C13: for a Create request, `comp2` on a frame whose second slot is empty
does nothing, and `rollback1` on the same frame, whose first slot holds `a1`, logs the one
call `Rollback u/api1 a1`. -/
theorem C13_compensation_guard_witness :
    comp2 (traced (fixture.scripted (Except.ok { ResourceID := "a1" })
          (Except.ok { ResourceID := "" }) (Except.error (GoError.errorf "fail3")) none))
        fixture.cfg (decide (fixture.post.Method = "POST"))
        { result := { Step1ID := "a1", Step2ID := "", Step3ID := "" },
          world := { trace := [], inner := () } }
      = (none, { result := { Step1ID := "a1", Step2ID := "", Step3ID := "" },
                 world := { trace := [], inner := () } })
    ∧ (rollback1 (traced (fixture.scripted (Except.ok { ResourceID := "a1" })
          (Except.ok { ResourceID := "" }) (Except.error (GoError.errorf "fail3")) none))
        fixture.cfg (decide (fixture.post.Method = "POST"))
        { result := { Step1ID := "a1", Step2ID := "", Step3ID := "" },
          world := { trace := [], inner := () } }).2.world.trace
      = [Event.Rollback "u/api1" "a1"] := by
  have t := C13_compensation_guard (fixture.scripted (Except.ok { ResourceID := "a1" })
      (Except.ok { ResourceID := "" }) (Except.error (GoError.errorf "fail3")) none)
    fixture.cfg fixture.post
    { result := { Step1ID := "a1", Step2ID := "", Step3ID := "" },
      world := { trace := [], inner := () } }
  refine ⟨t.2.1.2.2 (by decide), ?_⟩
  rw [t.1.1]
  decide

end workflow

namespace activities

open config

/-- For a Create or Update step, the id set after a 2xx answer is the first string among
the keys "id", "_id", "ID" of the decoded body, or empty. -/
theorem resourceIDOf_create_update (net : Net) (inp : StepInput) (resp : HttpResponse)
    (hm : inp.Method = "POST" ∨ inp.Method = "PUT") :
    resourceIDOf net inp resp = decodedID net resp.Body := by
  unfold resourceIDOf decodedID
  rw [if_pos hm]
  cases net.decode resp.Body with
  | none => rfl
  | some out =>
    simp only [firstStringOf]
    cases asString (List.lookup "id" out) with
    | some v => rfl
    | none =>
      cases asString (List.lookup "_id" out) with
      | some v => rfl
      | none =>
        cases asString (List.lookup "ID" out) with
        | some v => rfl
        | none => rfl

/-- Outside mock mode, what `crudOperation` does once the switch has given a URL and a
body, the request was accepted, and the answer has a 2xx status. -/
theorem crudOperation_2xx (net : Net) (cfg : Config) (inp : StepInput) (w : Outside)
    (url body : String) (resp : HttpResponse) (hmock : cfg.MockMode = false)
    (ht : requestTarget net inp = Except.ok (url, body))
    (hn : net.newRequest inp.Method url = none)
    (hr : net.roundTrip w.requests (requestOf inp url body) = Except.ok resp)
    (hlo : 200 ≤ resp.StatusCode) (hhi : resp.StatusCode < 300) :
    crudOperation net cfg inp w
      = (({ ResourceID := resourceIDOf net inp resp }, none),
         { w with requests := w.requests ++ [requestOf inp url body] }) := by
  have hst : ¬ (resp.StatusCode < 200 ∨ resp.StatusCode ≥ 300) := by omega
  unfold requestOf at hr
  unfold crudOperation
  simp only [hmock, ht, hn, hr, requestOf]
  simp [hst]

/-- C14: outside mock mode, a Create step, or an Update step with a non-empty resource
id, whose request is accepted and answered with a 2xx status succeeds with the id read
from the body: the value of the first of the keys "id", "_id", "ID" that holds a string
in the decoded object, and the empty id when no such key holds a string or the body does
not decode.  A Delete step with a non-empty resource id that is answered 2xx succeeds
with its input resource id.  Each sends exactly its one request. -/
theorem C14_resource_id_from_response (net : Net) (cfg : Config) (inp : StepInput)
    (w : Outside) (resp : HttpResponse) (hmock : cfg.MockMode = false)
    (hlo : 200 ≤ resp.StatusCode) (hhi : resp.StatusCode < 300) :
    (inp.Method = "POST" →
        net.newRequest "POST" (inp.BaseURL ++ "/create") = none →
        net.roundTrip w.requests
            (requestOf inp (inp.BaseURL ++ "/create") (net.marshal inp.Payload))
          = Except.ok resp →
        crudOperation net cfg inp w
          = (({ ResourceID := decodedID net resp.Body }, none),
             { w with requests := w.requests
                ++ [requestOf inp (inp.BaseURL ++ "/create") (net.marshal inp.Payload)] }))
    ∧ (inp.Method = "PUT" → inp.ResourceID ≠ "" →
        net.newRequest "PUT" (inp.BaseURL ++ "/" ++ inp.ResourceID) = none →
        net.roundTrip w.requests
            (requestOf inp (inp.BaseURL ++ "/" ++ inp.ResourceID) (net.marshal inp.Payload))
          = Except.ok resp →
        crudOperation net cfg inp w
          = (({ ResourceID := decodedID net resp.Body }, none),
             { w with requests := w.requests
                ++ [requestOf inp (inp.BaseURL ++ "/" ++ inp.ResourceID)
                      (net.marshal inp.Payload)] }))
    ∧ (inp.Method = "DELETE" → inp.ResourceID ≠ "" →
        net.newRequest "DELETE" (inp.BaseURL ++ "/" ++ inp.ResourceID) = none →
        net.roundTrip w.requests (requestOf inp (inp.BaseURL ++ "/" ++ inp.ResourceID) "")
          = Except.ok resp →
        crudOperation net cfg inp w
          = (({ ResourceID := inp.ResourceID }, none),
             { w with requests := w.requests
                ++ [requestOf inp (inp.BaseURL ++ "/" ++ inp.ResourceID) ""] }))
    ∧ (∀ (body : String) (out : GoMap), net.decode body = some out →
        decodedID net body
          = (match asString (out.lookup "id") with
             | some v => v
             | none =>
               match asString (out.lookup "_id") with
               | some v => v
               | none =>
                 match asString (out.lookup "ID") with
                 | some v => v
                 | none => ""))
    ∧ (∀ (body : String), net.decode body = none → decodedID net body = "") := by
  refine ⟨?_, ?_, ?_, ?_, ?_⟩
  · intro hm hn hr
    have ht : requestTarget net inp
        = Except.ok (inp.BaseURL ++ "/create", net.marshal inp.Payload) := by
      simp [requestTarget, hm]
    rw [crudOperation_2xx net cfg inp w _ _ resp hmock ht (by rw [hm]; exact hn) hr hlo hhi,
      resourceIDOf_create_update net inp resp (Or.inl hm)]
  · intro hm hid hn hr
    have ht : requestTarget net inp
        = Except.ok (inp.BaseURL ++ "/" ++ inp.ResourceID, net.marshal inp.Payload) := by
      simp [requestTarget, hm, hid]
    rw [crudOperation_2xx net cfg inp w _ _ resp hmock ht (by rw [hm]; exact hn) hr hlo hhi,
      resourceIDOf_create_update net inp resp (Or.inr hm)]
  · intro hm hid hn hr
    have ht : requestTarget net inp
        = Except.ok (inp.BaseURL ++ "/" ++ inp.ResourceID, "") := by
      simp [requestTarget, hm, hid]
    rw [crudOperation_2xx net cfg inp w _ _ resp hmock ht (by rw [hm]; exact hn) hr hlo hhi]
    simp [resourceIDOf, hm]
  · intro body out hd
    unfold decodedID
    rw [hd]
    simp only [firstStringOf]
    cases asString (List.lookup "id" out) with
    | some v => rfl
    | none =>
      cases asString (List.lookup "_id" out) with
      | some v => rfl
      | none =>
        cases asString (List.lookup "ID" out) with
        | some v => rfl
        | none => rfl
  · intro body hd
    unfold decodedID
    rw [hd]

/-- Witness of C14: an Update answered `201` with an object whose "id" is a number,
whose "_id" is the string `x7` and whose "ID" is the string `z9` succeeds with `x7`. -/
theorem C14_resource_id_from_response_witness :
    fixture.cfg.MockMode = false
    ∧ fixture.putStep.Method = "PUT"
    ∧ (crudOperation fixture.netMongo fixture.cfg fixture.putStep fixture.fresh).1
      = ({ ResourceID := "x7" }, none) := by
  have t := (C14_resource_id_from_response fixture.netMongo fixture.cfg fixture.putStep
    fixture.fresh { StatusCode := 201, Body := "doc" } rfl (by decide) (by decide)).2.1
    rfl (by decide) rfl rfl
  refine ⟨rfl, rfl, ?_⟩
  rw [t]
  decide

end activities
